import Mathlib

/-
  Verification model of the remote-synchronization subsystem of the notes
  application (src/src/sync/GoogleDriveManager.cpp and
  src/src/sync/SyncManager.cpp).

  The C++ classes are embedded shallowly: member variables become fields of a
  state structure, every method becomes a function from state to state paired
  with a list of observable effects (outgoing network requests, emitted Qt
  signals, token persistence), and each network-reply handler becomes a
  function taking the parsed reply.  Qt signal connections with direct
  (same-thread) delivery are modelled by routing a callee's emitted effects
  through the connected slots in emission order.
-/

set_option autoImplicit false

namespace NotesSync

/-- Whitespace as recognised by QChar::isSpace for the ASCII range; the
QString::trimmed calls in the sync code only ever see ASCII content in the
scenarios the claims mention. -/
def isQtSpace (c : Char) : Bool :=
  c = ' ' || c = '\t' || c = '\n' || c = '\x0b' || c = '\x0c' || c = '\r'

/-- QString::trimmed: strip leading and trailing whitespace. -/
def qtTrim (s : String) : String :=
  String.mk (((s.data.dropWhile isQtSpace).reverse.dropWhile isQtSpace).reverse)

/-- Does the text begin with the pattern (both as character lists)? -/
def charsStartWith : List Char → List Char → Bool
  | [], _ => true
  | _ :: _, [] => false
  | p :: ps, c :: cs => p == c && charsStartWith ps cs

/-- Does the pattern occur anywhere in the text (both as character lists)? -/
def charsContain (pat : List Char) : List Char → Bool
  | [] => charsStartWith pat []
  | c :: cs => charsStartWith pat (c :: cs) || charsContain pat cs

/-- QString::contains (case-sensitive, the default in the source): true when
the pattern occurs somewhere in the string. -/
def containsSub (s pat : String) : Bool :=
  charsContain pat.data s.data

/-- Case-insensitive containment, matching QString::contains with
Qt::CaseInsensitive as used in SyncManager::onError. -/
def containsCI (s pat : String) : Bool :=
  charsContain (pat.data.map Char.toLower) (s.data.map Char.toLower)

/-- QMap String String value lookup: QMap::value with default handled by
callers.  First matching key wins; keys are unique by construction. -/
def mapGet : List (String × String) → String → Option String
  | [], _ => none
  | (a, b) :: rest, k => if a = k then some b else mapGet rest k

/-- QMap::contains. -/
def mapContains (m : List (String × String)) (k : String) : Bool :=
  (mapGet m k).isSome

/-- QMap insertion (operator[] assignment): replace the value when the key is
present, append otherwise. -/
def mapInsert : List (String × String) → String → String → List (String × String)
  | [], k, v => [(k, v)]
  | (a, b) :: rest, k, v =>
      if a = k then (a, v) :: rest else (a, b) :: mapInsert rest k v

/-- QMap::remove. -/
def mapErase : List (String × String) → String → List (String × String)
  | [], _ => []
  | (a, b) :: rest, k => if a = k then rest else (a, b) :: mapErase rest k

/-- Insert into an ascending list of keys, used to model QMap::keys which
returns keys in sorted order. -/
def insertSortedKey (x : String) : List String → List String
  | [] => [x]
  | y :: ys => if x < y then x :: y :: ys else y :: insertSortedKey x ys

/-- Sort a key list ascending (QMap iterates keys in sorted order). -/
def sortKeys : List String → List String
  | [] => []
  | x :: xs => insertSortedKey x (sortKeys xs)

/-- Keys of the association map, in QMap (sorted) order. -/
def mapKeysSorted (m : List (String × String)) : List String :=
  sortKeys (m.map Prod.fst)

/-- The static helper makeUserFriendlyError at the top of
GoogleDriveManager.cpp: translate a technical error message into a
user-facing one by an ordered chain of case-sensitive substring tests. -/
def makeUserFriendlyError (technicalError : String) : String :=
  if containsSub technicalError "No refresh token available" then
    "Google Drive connection has expired. Please reconnect to Google Drive."
  else if containsSub technicalError "Not authenticated" then
    "Please connect to Google Drive first to sync your notes."
  else if containsSub technicalError "No sync folder set" then
    "Google Drive sync folder is not configured. Please check your sync settings."
  else if containsSub technicalError "Note content is empty" then
    "Cannot sync empty notes. Please add some content to your note first."
  else if containsSub technicalError "Note content is only whitespace" then
    "Cannot sync notes with only spaces. Please add some content to your note first."
  else if containsSub technicalError "No access token available" then
    "Google Drive authentication has expired. Please reconnect to Google Drive."
  else if containsSub technicalError "Access token expired" then
    "Google Drive connection has expired. Please reconnect to Google Drive."
  else if containsSub technicalError "Authentication failed" then
    "Failed to connect to Google Drive. Please check your internet connection and try again."
  else if containsSub technicalError "Token refresh failed" then
    "Google Drive connection has expired. Please reconnect to Google Drive."
  else if containsSub technicalError "Failed to list notes" then
    "Unable to retrieve notes from Google Drive. Please check your connection and try again."
  else if containsSub technicalError "Failed to create folder" then
    "Unable to create folder in Google Drive. Please check your permissions and try again."
  else if containsSub technicalError "Failed to create subfolder" then
    "Unable to create subfolder in Google Drive. Please check your permissions and try again."
  else if containsSub technicalError "Failed to search for folder" then
    "Unable to find folder in Google Drive. Please check your sync settings."
  else if containsSub technicalError "Failed to list subfolders" then
    "Unable to retrieve folders from Google Drive. Please check your connection and try again."
  else if containsSub technicalError "Failed to list notes in folder" then
    "Unable to retrieve notes from Google Drive folder. Please check your connection and try again."
  else if containsSub technicalError "errorString" || containsSub technicalError "network" then
    "Unable to connect to Google Drive. Please check your internet connection and try again."
  else
    "A sync error occurred. Please try again or reconnect to Google Drive."

/-- The hierarchical local structure DatabaseManager::getFolderStructure
returns: a list of (folderName, list of (title, body)). -/
abbrev FolderStructure := List (String × List (String × String))

/-- Observable effects of GoogleDriveManager methods: outgoing HTTP requests
(req...), token-file persistence, browser launch, and emitted Qt signals
(emit...).  Requests carry the data the source attaches to the request or
stores on the reply object for the response handler. -/
inductive DriveEffect where
  | reqTokenRefresh (refreshTok : String)
  | reqUploadMetadata (noteId content title folderId : String)
  | reqList (parentId : String)
  | reqCreateFolder (name parentId : String)
  | reqCreateRootFolder
  | reqFindFolder
  | reqListSubfolders (parentId : String)
  | reqListNotesInFolder (folderId folderName : String)
  | saveTokens (access refresh : String) (expiry : Option Int)
  | openBrowser
  | emitAuthChanged (authenticated : Bool)
  | emitError (msg : String)
  | emitUploadComplete (noteId : String) (ok : Bool)
  | emitDownloadComplete (noteId content : String) (ok : Bool)
  | emitDeleteComplete (noteId : String) (ok : Bool)
  | emitNotesListReceived
  | emitSyncComplete
  | emitSmartSyncComplete
  deriving DecidableEq, Repr

/-- The member state of GoogleDriveManager.  QDateTime values are modelled as
Option Int (none = invalid QDateTime, some t = a timestamp in seconds);
QMap String String as association lists with unique keys. -/
structure DriveState where
  accessToken : String
  refreshToken : String
  tokenExpiry : Option Int
  isAuthenticatedFlag : Bool
  syncFolderId : String
  subfolderIds : List (String × String)
  pendingFolderStructure : FolderStructure
  pendingSubfolderIndex : Nat
  remoteNoteHashes : List (String × String)
  remoteNoteIds : List (String × String)
  remoteFolderIds : List (String × String)
  structureChecked : Bool
  deriving DecidableEq, Repr

/-- Field values of a freshly constructed GoogleDriveManager before
loadTokens runs. -/
def driveStateBase : DriveState :=
  { accessToken := ""
    refreshToken := ""
    tokenExpiry := none
    isAuthenticatedFlag := false
    syncFolderId := ""
    subfolderIds := []
    pendingFolderStructure := []
    pendingSubfolderIndex := 0
    remoteNoteHashes := []
    remoteNoteIds := []
    remoteFolderIds := []
    structureChecked := false }

/-- Parsed contents of the token file, as read by loadTokens.  A missing or
unparseable expiry string yields an invalid QDateTime, hence Option Int. -/
structure TokenFile where
  accessTokenStr : String
  refreshTokenStr : String
  expiryParsed : Option Int
  deriving DecidableEq, Repr

/-- GoogleDriveManager::loadTokens: when the token file opens, copy its three
fields and derive the authentication flag from access-token nonemptiness;
otherwise leave the state as constructed. -/
def loadTokens (file : Option TokenFile) (s : DriveState) : DriveState :=
  match file with
  | none => s
  | some tf =>
      { s with
        accessToken := tf.accessTokenStr
        refreshToken := tf.refreshTokenStr
        tokenExpiry := tf.expiryParsed
        isAuthenticatedFlag := !(tf.accessTokenStr == "") }

/-- The state of a GoogleDriveManager right after its constructor (which
calls loadTokens on the token file found on disk, if any). -/
def driveInit (file : Option TokenFile) : DriveState :=
  loadTokens file driveStateBase

/-- GoogleDriveManager::refreshToken (the method named refreshToken in the
source): with no stored refresh token, emit the user-friendly translation of
the no-refresh-token error and stop; otherwise issue the token-refresh POST. -/
def refreshTokenM (s : DriveState) : DriveState × List DriveEffect :=
  if s.refreshToken == "" then
    (s, [.emitError (makeUserFriendlyError "No refresh token available")])
  else
    (s, [.reqTokenRefresh s.refreshToken])

/-- The first block of GoogleDriveManager::refreshTokenIfNeeded: if the
expiry is valid and less than 300 seconds away, call refreshToken. -/
def refreshSoonStep (now : Int) (s : DriveState) : DriveState × List DriveEffect :=
  match s.tokenExpiry with
  | some e => if e - now < 300 then refreshTokenM s else (s, [])
  | none => (s, [])

/-- The second block of GoogleDriveManager::refreshTokenIfNeeded: if the
expiry is valid and already passed, call refreshToken when a refresh token
exists, else drop the authentication flag and signal the expiry error. -/
def refreshExpiredStep (now : Int) (s : DriveState) : DriveState × List DriveEffect :=
  match s.tokenExpiry with
  | some e =>
      if e ≤ now then
        if !(s.refreshToken == "") then refreshTokenM s
        else
          ({ s with isAuthenticatedFlag := false },
           [.emitAuthChanged false,
            .emitError (makeUserFriendlyError
              "Access token expired and no refresh token available. Please re-authenticate.")])
      else (s, [])
  | none => (s, [])

/-- GoogleDriveManager::refreshTokenIfNeeded runs its two blocks in
sequence. -/
def refreshTokenIfNeeded (now : Int) (s : DriveState) : DriveState × List DriveEffect :=
  let step1 := refreshSoonStep now s
  let step2 := refreshExpiredStep now step1.1
  (step2.1, step1.2 ++ step2.2)

/-- The expiry test shared verbatim by isAuthenticated and addAuthHeader:
with a valid, already-passed expiry, trigger refreshTokenIfNeeded. -/
def expiredRefreshCheck (now : Int) (s : DriveState) : DriveState × List DriveEffect :=
  match s.tokenExpiry with
  | some e => if e ≤ now then refreshTokenIfNeeded now s else (s, [])
  | none => (s, [])

/-- GoogleDriveManager::isAuthenticated: when the flag is set and a token is
present, an expired valid expiry triggers refreshTokenIfNeeded (which may
clear the flag); the returned value is recomputed from the possibly-updated
state. -/
def isAuthenticatedM (now : Int) (s : DriveState) : Bool × DriveState × List DriveEffect :=
  let step :=
    if s.isAuthenticatedFlag && !(s.accessToken == "") then expiredRefreshCheck now s
    else (s, [])
  (step.1.isAuthenticatedFlag && !(step.1.accessToken == ""), step.1, step.2)

/-- GoogleDriveManager::addAuthHeader: with a token present, an expired valid
expiry triggers refreshTokenIfNeeded (the current request still proceeds with
the old token); with no token, emit the no-access-token error. -/
def addAuthHeader (now : Int) (s : DriveState) : DriveState × List DriveEffect :=
  if !(s.accessToken == "") then expiredRefreshCheck now s
  else
    (s, [.emitError (makeUserFriendlyError
          "No access token available. Please authenticate with Google Drive first.")])

/-- GoogleDriveManager::authenticate: a no-op when already flagged
authenticated, otherwise open the OAuth consent URL in the browser. -/
def authenticateM (s : DriveState) : DriveState × List DriveEffect :=
  if s.isAuthenticatedFlag then (s, []) else (s, [.openBrowser])

/-- GoogleDriveManager::logout: clear both tokens and the expiry, drop the
flag, persist, and signal the change. -/
def logoutM (s : DriveState) : DriveState × List DriveEffect :=
  let s1 := { s with accessToken := "", refreshToken := "", tokenExpiry := none,
                     isAuthenticatedFlag := false }
  (s1, [.saveTokens s1.accessToken s1.refreshToken s1.tokenExpiry, .emitAuthChanged false])

/-- GoogleDriveManager::forceReauthenticate: clear tokens, flag, structure
flag and all four structure maps, persist the cleared tokens, signal the
change, and restart the auth flow. -/
def forceReauthenticateM (s : DriveState) : DriveState × List DriveEffect :=
  let s1 := { s with accessToken := "", refreshToken := "", tokenExpiry := none,
                     isAuthenticatedFlag := false, structureChecked := false,
                     remoteNoteHashes := [], remoteNoteIds := [],
                     remoteFolderIds := [], subfolderIds := [] }
  let r := authenticateM s1
  (r.1, [.saveTokens s1.accessToken s1.refreshToken s1.tokenExpiry,
         .emitAuthChanged false] ++ r.2)

/-- GoogleDriveManager::setSyncFolder. -/
def setSyncFolder (folderId : String) (s : DriveState) : DriveState :=
  { s with syncFolderId := folderId }

/-- GoogleDriveManager::clearStructureData: wipe the duplicate-prevention
maps, the structure flag, the pending structure and the cursor. -/
def clearStructureData (s : DriveState) : DriveState :=
  { s with subfolderIds := [], remoteFolderIds := [], remoteNoteIds := [],
           remoteNoteHashes := [], structureChecked := false,
           pendingFolderStructure := [], pendingSubfolderIndex := 0 }

/-- GoogleDriveManager::uploadNote: authentication and sync-folder guards,
then the three content validations (empty, whitespace-only, content equal to
title after trimming), each failing locally with its own message; only a
valid call builds the authenticated metadata request (POST for a new file,
PUT for an update — both modelled as one metadata request effect). -/
def uploadNote (now : Int) (noteId content title : String) (s : DriveState) :
    DriveState × List DriveEffect :=
  let a := isAuthenticatedM now s
  let s1 := a.2.1
  if !a.1 then
    (s1, a.2.2 ++ [.emitError (makeUserFriendlyError "Not authenticated")])
  else if s1.syncFolderId == "" then
    (s1, a.2.2 ++ [.emitError (makeUserFriendlyError "No sync folder set for upload")])
  else if content == "" then
    (s1, a.2.2 ++ [.emitError (makeUserFriendlyError "Note content is empty")])
  else if qtTrim content == "" then
    (s1, a.2.2 ++ [.emitError (makeUserFriendlyError "Note content is only whitespace")])
  else if qtTrim content == qtTrim title then
    (s1, a.2.2 ++
      [.emitError "Note content is just the title - this indicates an error in content passing"])
  else
    let h := addAuthHeader now s1
    (h.1, a.2.2 ++ h.2 ++ [.reqUploadMetadata noteId content title h.1.syncFolderId])

/-- GoogleDriveManager::uploadNoteToFolder: like uploadNote but targeting an
explicit folder id; its validation stops after the empty and whitespace-only
checks (the source has no content-equals-title rejection here). -/
def uploadNoteToFolder (now : Int) (noteId content title folderId : String) (s : DriveState) :
    DriveState × List DriveEffect :=
  let a := isAuthenticatedM now s
  let s1 := a.2.1
  if !a.1 then
    (s1, a.2.2 ++ [.emitError (makeUserFriendlyError "Not authenticated")])
  else if folderId == "" then
    (s1, a.2.2 ++ [.emitError "No folder ID specified for upload"])
  else if content == "" then
    (s1, a.2.2 ++ [.emitError (makeUserFriendlyError "Note content is empty")])
  else if qtTrim content == "" then
    (s1, a.2.2 ++ [.emitError (makeUserFriendlyError "Note content is only whitespace")])
  else
    let h := addAuthHeader now s1
    (h.1, a.2.2 ++ h.2 ++ [.reqUploadMetadata noteId content title folderId])

/-- GoogleDriveManager::listNotes: with authentication and a sync folder,
issue the authenticated listing request; without a sync folder the method
logs and returns with no error signal. -/
def listNotes (now : Int) (s : DriveState) : DriveState × List DriveEffect :=
  let a := isAuthenticatedM now s
  let s1 := a.2.1
  if !a.1 then
    (s1, a.2.2 ++ [.emitError (makeUserFriendlyError "Not authenticated")])
  else if s1.syncFolderId == "" then
    (s1, a.2.2)
  else
    let h := addAuthHeader now s1
    (h.1, a.2.2 ++ h.2 ++ [.reqList h.1.syncFolderId])

/-- GoogleDriveManager::createFolder: authenticated folder creation beneath
the root sync folder, tracked as a create_subfolder request. -/
def createFolder (now : Int) (folderName : String) (s : DriveState) :
    DriveState × List DriveEffect :=
  let a := isAuthenticatedM now s
  let s1 := a.2.1
  if !a.1 then
    (s1, a.2.2 ++ [.emitError (makeUserFriendlyError "Not authenticated")])
  else if s1.syncFolderId == "" then
    (s1, a.2.2 ++ [.emitError "No sync folder set for folder creation"])
  else
    let h := addAuthHeader now s1
    (h.1, a.2.2 ++ h.2 ++ [.reqCreateFolder folderName h.1.syncFolderId])

/-- GoogleDriveManager::listSubfolders: authenticated listing of the folders
directly beneath the root sync folder. -/
def listSubfolders (now : Int) (s : DriveState) : DriveState × List DriveEffect :=
  let a := isAuthenticatedM now s
  let s1 := a.2.1
  if !a.1 then
    (s1, a.2.2 ++ [.emitError (makeUserFriendlyError "Not authenticated")])
  else
    let h := addAuthHeader now s1
    (h.1, a.2.2 ++ h.2 ++ [.reqListSubfolders h.1.syncFolderId])

/-- GoogleDriveManager::listNotesInFolder: authenticated listing of the
files in one subfolder; the folder name rides along for the handler. -/
def listNotesInFolder (now : Int) (folderId folderName : String) (s : DriveState) :
    DriveState × List DriveEffect :=
  let a := isAuthenticatedM now s
  let s1 := a.2.1
  if !a.1 then
    (s1, a.2.2 ++ [.emitError (makeUserFriendlyError "Not authenticated")])
  else
    let h := addAuthHeader now s1
    (h.1, a.2.2 ++ h.2 ++ [.reqListNotesInFolder folderId folderName])

/-- GoogleDriveManager::checkExistingStructure simply lists the subfolders. -/
def checkExistingStructure (now : Int) (s : DriveState) : DriveState × List DriveEffect :=
  listSubfolders now s

/-- GoogleDriveManager::findExistingNotesFolder: authenticated search for a
folder named Notes App. -/
def findExistingNotesFolder (now : Int) (s : DriveState) : DriveState × List DriveEffect :=
  let a := isAuthenticatedM now s
  let s1 := a.2.1
  if !a.1 then
    (s1, a.2.2 ++ [.emitError (makeUserFriendlyError "Not authenticated")])
  else
    let h := addAuthHeader now s1
    (h.1, a.2.2 ++ h.2 ++ [.reqFindFolder])

/-- GoogleDriveManager::createNotesFolder: after its own authentication
guard, delegate to findExistingNotesFolder (which guards again). -/
def createNotesFolder (now : Int) (s : DriveState) : DriveState × List DriveEffect :=
  let a := isAuthenticatedM now s
  let s1 := a.2.1
  if !a.1 then
    (s1, a.2.2 ++ [.emitError (makeUserFriendlyError "Not authenticated")])
  else
    let r := findExistingNotesFolder now s1
    (r.1, a.2.2 ++ r.2)

/-- The per-note body of GoogleDriveManager::startNoteUploads for the notes
of one mapped subfolder: an already-listed title is re-uploaded to its
existing remote id only when the cached hash differs from the fresh hash of
the local content (the cache defaults to the empty string), and an unlisted
title is uploaded as a new file. -/
def uploadNotesList (now : Int) (hash : String → String) (subfolderId : String) :
    List (String × String) → DriveState → DriveState × List DriveEffect
  | [], s => (s, [])
  | (title, content) :: rest, s =>
      let first : DriveState × List DriveEffect :=
        match mapGet s.remoteNoteIds title with
        | some existingNoteId =>
            let existingHash := (mapGet s.remoteNoteHashes title).getD ""
            let newHash := hash content
            if existingHash != newHash then
              uploadNoteToFolder now existingNoteId content title subfolderId s
            else
              (s, [])
        | none => uploadNoteToFolder now "" content title subfolderId s
      let rest2 := uploadNotesList now hash subfolderId rest first.1
      (rest2.1, first.2 ++ rest2.2)

/-- The folder loop of GoogleDriveManager::startNoteUploads: a folder whose
name has a subfolder-id entry gets its notes processed; one without is
passed over with only a debug log. -/
def uploadFolderList (now : Int) (hash : String → String) :
    FolderStructure → DriveState → DriveState × List DriveEffect
  | [], s => (s, [])
  | (folderName, notes) :: rest, s =>
      let first : DriveState × List DriveEffect :=
        match mapGet s.subfolderIds folderName with
        | some subfolderId => uploadNotesList now hash subfolderId notes s
        | none => (s, [])
      let rest2 := uploadFolderList now hash rest first.1
      (rest2.1, first.2 ++ rest2.2)

/-- GoogleDriveManager::startNoteUploads iterates the pending folder
structure. -/
def startNoteUploads (now : Int) (hash : String → String) (s : DriveState) :
    DriveState × List DriveEffect :=
  uploadFolderList now hash s.pendingFolderStructure s

/-- The recursion of GoogleDriveManager::createNextSubfolder, made
structural on the quantity its self-call decreases, the number of pending
folders not yet processed (the fuel argument): past the end of the pending
list, switch to the note uploads; at a folder already mapped, advance the
cursor and recurse; otherwise issue exactly one folder-create request and
wait for its completion.  The fuel-exhausted arm is unreachable when the
fuel starts at that count, as createNextSubfolder arranges. -/
def createNextSubfolderAux (now : Int) (hash : String → String) :
    Nat → DriveState → DriveState × List DriveEffect
  | 0, s => startNoteUploads now hash s
  | fuel + 1, s =>
    if h : s.pendingFolderStructure.length ≤ s.pendingSubfolderIndex then
      startNoteUploads now hash s
    else
      let folderName := (s.pendingFolderStructure.get
        ⟨s.pendingSubfolderIndex, by omega⟩).1
      if mapContains s.subfolderIds folderName then
        createNextSubfolderAux now hash fuel
          { s with pendingSubfolderIndex := s.pendingSubfolderIndex + 1 }
      else
        createFolder now folderName s

/-- GoogleDriveManager::createNextSubfolder. -/
def createNextSubfolder (now : Int) (hash : String → String) (s : DriveState) :
    DriveState × List DriveEffect :=
  createNextSubfolderAux now hash
    (s.pendingFolderStructure.length - s.pendingSubfolderIndex) s

/-- GoogleDriveManager::createSubfoldersAndUploadNotes: clear the structure
maps and flag, store the pending structure, then (after a vacuous
already-checked test, made unreachable by the clearing just above it) reset
the cursor and start the remote structure check. -/
def createSubfoldersAndUploadNotes (now : Int) (hash : String → String)
    (folderStructure : FolderStructure) (s : DriveState) : DriveState × List DriveEffect :=
  if s.syncFolderId == "" then
    (s, [.emitError "No sync folder ID set for subfolder creation"])
  else
    let s1 := { s with subfolderIds := [], remoteFolderIds := [], remoteNoteIds := [],
                       remoteNoteHashes := [], structureChecked := false,
                       pendingFolderStructure := folderStructure }
    if s1.structureChecked && !s1.subfolderIds.isEmpty then
      startNoteUploads now hash s1
    else
      checkExistingStructure now { s1 with pendingSubfolderIndex := 0 }

/-- GoogleDriveManager::uploadFolderStructure: with no root sync folder yet,
create it (the upload continues from the folder-created signal); otherwise
proceed directly to subfolder creation. -/
def uploadFolderStructure (now : Int) (hash : String → String)
    (folderStructure : FolderStructure) (s : DriveState) : DriveState × List DriveEffect :=
  let a := isAuthenticatedM now s
  let s1 := a.2.1
  if !a.1 then
    (s1, a.2.2 ++ [.emitError (makeUserFriendlyError "Not authenticated")])
  else if s1.syncFolderId == "" then
    let r := createNotesFolder now s1
    (r.1, a.2.2 ++ r.2)
  else
    let r := createSubfoldersAndUploadNotes now hash folderStructure s1
    (r.1, a.2.2 ++ r.2)

/-- GoogleDriveManager::smartSync: guards, then either start the structure
check or, with the structure already checked, emit syncComplete at once. -/
def smartSyncDrive (now : Int) (s : DriveState) : DriveState × List DriveEffect :=
  let a := isAuthenticatedM now s
  let s1 := a.2.1
  if !a.1 then
    (s1, a.2.2 ++ [.emitError (makeUserFriendlyError "Not authenticated")])
  else if s1.syncFolderId == "" then
    (s1, a.2.2 ++ [.emitError "No sync folder set"])
  else if !s1.structureChecked then
    let r := checkExistingStructure now s1
    (r.1, a.2.2 ++ r.2)
  else
    (s1, a.2.2 ++ [.emitSyncComplete])

/-- Outcome of one network reply as seen by a response handler:
QNetworkReply::NoError with a parsed payload, or an error string. -/
inductive ApiResult (α : Type) where
  | success (v : α)
  | failure (errorString : String)
  deriving DecidableEq, Repr

/-- Parsed JSON body of a token-endpoint reply.  QJsonObject lookup of a
missing key yields an empty string from toString, so absent access_token or
refresh_token fields appear here as the empty string. -/
structure TokenResponse where
  accessTokenStr : String
  refreshTokenStr : String
  expiresIn : Int
  deriving DecidableEq, Repr

/-- GoogleDriveManager::createNewNotesFolder: authenticated creation of the
root Notes App folder under the drive root, tracked as create_folder. -/
def createNewNotesFolder (now : Int) (s : DriveState) : DriveState × List DriveEffect :=
  let a := isAuthenticatedM now s
  let s1 := a.2.1
  if !a.1 then
    (s1, a.2.2 ++ [.emitError (makeUserFriendlyError "Not authenticated")])
  else
    let h := addAuthHeader now s1
    (h.1, a.2.2 ++ h.2 ++ [.reqCreateRootFolder])

/-- GoogleDriveManager::handleAuthResponse: a successful reply overwrites
both tokens from the response body (an absent refresh_token field reads back
as the empty string), sets expiry to now plus expires_in, sets the flag,
persists, and signals the change; an error reply only emits the translated
failure message. -/
def handleAuthResponse (now : Int) (r : ApiResult TokenResponse) (s : DriveState) :
    DriveState × List DriveEffect :=
  match r with
  | .success resp =>
      let s1 := { s with accessToken := resp.accessTokenStr,
                         refreshToken := resp.refreshTokenStr,
                         tokenExpiry := some (now + resp.expiresIn),
                         isAuthenticatedFlag := true }
      (s1, [.saveTokens s1.accessToken s1.refreshToken s1.tokenExpiry, .emitAuthChanged true])
  | .failure msg =>
      (s, [.emitError (makeUserFriendlyError ("Authentication failed: " ++ msg))])

/-- GoogleDriveManager::handleTokenRefresh: a successful reply overwrites
the access token and the expiry and persists; the stored refresh token and
the flag are untouched.  A failed reply emits the translated error, clears
the flag and signals the change, leaving the access token in place. -/
def handleTokenRefresh (now : Int) (r : ApiResult TokenResponse) (s : DriveState) :
    DriveState × List DriveEffect :=
  match r with
  | .success resp =>
      let s1 := { s with accessToken := resp.accessTokenStr,
                         tokenExpiry := some (now + resp.expiresIn) }
      (s1, [.saveTokens s1.accessToken s1.refreshToken s1.tokenExpiry])
  | .failure msg =>
      ({ s with isAuthenticatedFlag := false },
       [.emitError (makeUserFriendlyError ("Token refresh failed: " ++ msg)),
        .emitAuthChanged false])

/-- GoogleDriveManager::handleCreateFolderResponse (root Notes App folder):
on success adopt the returned id as the sync folder (the explicit assignment
followed by setSyncFolder in the source) and emit syncComplete; on failure
emit the raw error text. -/
def handleCreateFolderResponse (r : ApiResult (String × String)) (s : DriveState) :
    DriveState × List DriveEffect :=
  match r with
  | .success (folderId, _folderName) =>
      (setSyncFolder folderId { s with syncFolderId := folderId }, [.emitSyncComplete])
  | .failure msg =>
      (s, [.emitError ("Failed to create folder: " ++ msg)])

/-- GoogleDriveManager::handleFindFolderResponse: an existing Notes App
folder is adopted as the sync folder with a syncComplete signal; an empty
result list triggers creation of a fresh root folder; an error reply emits
the raw error text. -/
def handleFindFolderResponse (now : Int) (r : ApiResult (List (String × String)))
    (s : DriveState) : DriveState × List DriveEffect :=
  match r with
  | .success files =>
      match files with
      | (folderId, _folderName) :: _ =>
          (setSyncFolder folderId { s with syncFolderId := folderId }, [.emitSyncComplete])
      | [] => createNewNotesFolder now s
  | .failure msg =>
      (s, [.emitError ("Failed to search for folder: " ++ msg)])

/-- GoogleDriveManager::handleCreateSubfolderResponse: success records the
name-to-id mapping; both success and failure advance the cursor and call
createNextSubfolder, the failure case first emitting the raw error text, so
one folder's failure never stops the sequence. -/
def handleCreateSubfolderResponse (now : Int) (hash : String → String)
    (r : ApiResult (String × String)) (s : DriveState) : DriveState × List DriveEffect :=
  match r with
  | .success (folderId, folderName) =>
      let s1 := { s with subfolderIds := mapInsert s.subfolderIds folderName folderId }
      createNextSubfolder now hash
        { s1 with pendingSubfolderIndex := s1.pendingSubfolderIndex + 1 }
  | .failure msg =>
      let r2 := createNextSubfolder now hash
        { s with pendingSubfolderIndex := s.pendingSubfolderIndex + 1 }
      (r2.1, .emitError ("Failed to create subfolder: " ++ msg) :: r2.2)

/-- The discovery loop of handleListSubfoldersResponse: record each listed
subfolder (id, name) in both the remote-folder and subfolder maps. -/
def insertFolderEntries : List (String × String) → DriveState → DriveState
  | [], s => s
  | (folderId, folderName) :: rest, s =>
      insertFolderEntries rest
        { s with remoteFolderIds := mapInsert s.remoteFolderIds folderName folderId,
                 subfolderIds := mapInsert s.subfolderIds folderName folderId }

/-- The per-discovered-folder loop of handleListSubfoldersResponse: issue a
note-listing request for each known remote folder, iterating the keys in
QMap (sorted) order. -/
def listNotesForFolders (now : Int) : List String → DriveState → DriveState × List DriveEffect
  | [], s => (s, [])
  | folderName :: rest, s =>
      let first : DriveState × List DriveEffect :=
        match mapGet s.remoteFolderIds folderName with
        | some folderId => listNotesInFolder now folderId folderName s
        | none => (s, [])
      let rest2 := listNotesForFolders now rest first.1
      (rest2.1, first.2 ++ rest2.2)

/-- GoogleDriveManager::handleListSubfoldersResponse: on success record all
discovered subfolders, mark the structure checked, request the notes of each
discovered folder, and — with a pending structure present — immediately
continue with createNextSubfolder (before any of those note listings has
returned); on failure emit the raw error text. -/
def handleListSubfoldersResponse (now : Int) (hash : String → String)
    (r : ApiResult (List (String × String))) (s : DriveState) : DriveState × List DriveEffect :=
  match r with
  | .success files =>
      let s1 := { insertFolderEntries files s with structureChecked := true }
      let listing := listNotesForFolders now (mapKeysSorted s1.remoteFolderIds) s1
      if !listing.1.pendingFolderStructure.isEmpty then
        let cont := createNextSubfolder now hash listing.1
        (cont.1, listing.2 ++ cont.2)
      else
        (listing.1, listing.2)
  | .failure msg =>
      (s, [.emitError ("Failed to list subfolders: " ++ msg)])

/-- Strip a trailing .md extension, as handleListNotesInFolderResponse does
before keying the remote-note map by title (QString::endsWith followed by
left(length - 3), phrased over the character list). -/
def stripMd (name : String) : String :=
  if charsStartWith ['d', 'm', '.'] name.data.reverse then
    String.mk (name.data.take (name.data.length - 3))
  else name

/-- The discovery loop of handleListNotesInFolderResponse: record each
listed file (id, name) under its title.  No content hash is recorded here —
the remote-note-hash map has no writer anywhere in the source. -/
def insertNoteEntries : List (String × String) → DriveState → DriveState
  | [], s => s
  | (noteId, noteName) :: rest, s =>
      insertNoteEntries rest
        { s with remoteNoteIds := mapInsert s.remoteNoteIds (stripMd noteName) noteId }

/-- GoogleDriveManager::handleListNotesInFolderResponse: on success record
the listed notes, then emit smartSyncComplete whenever the structure is
checked and some remote folder is known; on failure emit the raw error
text. -/
def handleListNotesInFolderResponse (_folderName : String)
    (r : ApiResult (List (String × String))) (s : DriveState) : DriveState × List DriveEffect :=
  match r with
  | .success files =>
      let s1 := insertNoteEntries files s
      if s1.structureChecked && !s1.remoteFolderIds.isEmpty then
        (s1, [.emitSmartSyncComplete])
      else
        (s1, [])
  | .failure msg =>
      (s, [.emitError ("Failed to list notes in folder: " ++ msg)])

/-- GoogleDriveManager::calculateFileHash is an MD5 hex digest of the UTF-8
content.  The digest function itself is kept abstract throughout (theorems
quantify over it); the only fact ever needed is that a hex digest is never
the empty string, which each theorem states as an explicit hypothesis. -/
def hashNeverEmpty (hash : String → String) : Prop :=
  ∀ content, hash content ≠ ""

/-- The token-lifecycle operations the authentication-state claim ranges
over: loading the token file, completing an auth-code exchange, handling a
refresh reply, logout, forced re-authentication, and the periodic expiry
check. -/
inductive DriveOp where
  | opLoad (file : Option TokenFile)
  | opAuthResponse (now : Int) (r : ApiResult TokenResponse)
  | opRefreshResponse (now : Int) (r : ApiResult TokenResponse)
  | opLogout
  | opForceReauth
  | opExpiryCheck (now : Int)
  deriving Repr

/-- Apply one lifecycle operation, discarding the emitted effects. -/
def applyDriveOp (s : DriveState) : DriveOp → DriveState
  | .opLoad file => loadTokens file s
  | .opAuthResponse now r => (handleAuthResponse now r s).1
  | .opRefreshResponse now r => (handleTokenRefresh now r s).1
  | .opLogout => (logoutM s).1
  | .opForceReauth => (forceReauthenticateM s).1
  | .opExpiryCheck now => (refreshTokenIfNeeded now s).1

/-- Fold a list of lifecycle operations from a state. -/
def applyDriveOps (s : DriveState) (ops : List DriveOp) : DriveState :=
  ops.foldl applyDriveOp s

/-- The value GoogleDriveManager::isAuthenticated returns at a given time
(after any internal expiry-triggered state change). -/
def reportedAuthenticated (now : Int) (s : DriveState) : Bool :=
  (isAuthenticatedM now s).1

/-- Signals SyncManager emits outward, plus pass-through drive effects
(network requests, token persistence) and timer manipulations. -/
inductive SyncOut where
  | outSyncStarted
  | outSyncCompleted
  | outSyncFailed (msg : String)
  | outNoteUploaded (noteId : String) (ok : Bool)
  | outNoteDownloaded (noteId : String) (ok : Bool)
  | outAuthChanged (authenticated : Bool)
  | outScheduleReauth
  | outStartTimer (minutes : Int)
  | outStopTimer
  | outSaveState
  | drv (e : DriveEffect)
  deriving DecidableEq, Repr

/-- The member state of SyncManager together with its owned
GoogleDriveManager.  The three pending-operation lists are declared in the
source but never written, so checkSyncCompletion always sees them empty. -/
structure SyncState where
  drive : DriveState
  isSyncing : Bool
  autoSyncEnabled : Bool
  autoSyncInterval : Int
  syncFolderId : String
  syncCompletedEmitted : Bool
  pendingUploads : List String
  pendingDownloads : List String
  pendingDeletes : List String
  localToRemoteIdMap : List (String × String)
  remoteToLocalIdMap : List (String × String)
  deriving DecidableEq, Repr

/-- Inputs SyncManager reads from its collaborators during one step: the
current time, the content-hash function, and whatever
DatabaseManager::getFolderStructure returns. -/
structure SyncEnv where
  now : Int
  hash : String → String
  dbFolderStructure : FolderStructure

/-- The authentication-error classification in SyncManager::onError
(case-insensitive substring tests). -/
def isAuthErrorMsg (msg : String) : Bool :=
  containsCI msg "authentication" ||
  containsCI msg "Host requires authentication" ||
  containsCI msg "401" ||
  containsCI msg "Unauthorized"

/-- SyncManager::onError: an authentication-classified error surfaces a
reconnect message and schedules a delayed forced re-authentication; any
other error is surfaced as-is; both end the in-progress flag. -/
def onErrorSM (msg : String) (s : SyncState) : SyncState × List SyncOut :=
  if isAuthErrorMsg msg then
    ({ s with isSyncing := false },
     [.outSyncFailed "Authentication failed. Please re-authenticate with Google Drive.",
      .outScheduleReauth])
  else
    ({ s with isSyncing := false }, [.outSyncFailed msg])

/-- SyncManager::clearStructureData delegates to the drive manager. -/
def clearStructureDataSM (s : SyncState) : SyncState :=
  { s with drive := clearStructureData s.drive }

/-- SyncManager::checkSyncCompletion: with no pending operations (always the
case — nothing ever populates the lists), finish the sync, persist the
timestamped state, clear the structure data, and emit syncCompleted unless
the one-shot guard is already set. -/
def checkSyncCompletion (s : SyncState) : SyncState × List SyncOut :=
  if s.pendingUploads.isEmpty && s.pendingDownloads.isEmpty && s.pendingDeletes.isEmpty then
    let s1 := clearStructureDataSM { s with isSyncing := false }
    if !s1.syncCompletedEmitted then
      ({ s1 with syncCompletedEmitted := true }, [.outSaveState, .outSyncCompleted])
    else
      (s1, [.outSaveState])
  else
    (s, [])

/-- SyncManager::compareNotes: the comparison body is a placeholder; the
method finishes the sync, persists the timestamp and emits syncCompleted
under the one-shot guard. -/
def compareNotes (s : SyncState) : SyncState × List SyncOut :=
  let s1 := { s with isSyncing := false }
  if !s1.syncCompletedEmitted then
    ({ s1 with syncCompletedEmitted := true }, [.outSaveState, .outSyncCompleted])
  else
    (s1, [.outSaveState])

/-- SyncManager::onUploadComplete: report the note result, then test for
overall completion. -/
def onUploadComplete (noteId : String) (ok : Bool) (s : SyncState) :
    SyncState × List SyncOut :=
  let c := checkSyncCompletion s
  (c.1, .outNoteUploaded noteId ok :: c.2)

/-- SyncManager::onDownloadComplete: report the note result, then test for
overall completion. -/
def onDownloadComplete (noteId : String) (ok : Bool) (s : SyncState) :
    SyncState × List SyncOut :=
  let c := checkSyncCompletion s
  (c.1, .outNoteDownloaded noteId ok :: c.2)

/-- SyncManager::onDeleteComplete: on success drop the id mappings; the
source then emits noteDownloaded (as written) and tests for completion. -/
def onDeleteComplete (noteId : String) (ok : Bool) (s : SyncState) :
    SyncState × List SyncOut :=
  if ok then
    let localId := (mapGet s.remoteToLocalIdMap noteId).getD ""
    let s1 :=
      if !(localId == "") then
        { s with localToRemoteIdMap := mapErase s.localToRemoteIdMap localId,
                 remoteToLocalIdMap := mapErase s.remoteToLocalIdMap noteId }
      else s
    let c := checkSyncCompletion s1
    (c.1, .outNoteDownloaded noteId true :: c.2)
  else
    let c := checkSyncCompletion s
    (c.1, .outNoteDownloaded noteId false :: c.2)

/-- SyncManager::onSmartSyncComplete: finish the sync, persist the
timestamp, clear the structure data, and emit syncCompleted under the
one-shot guard. -/
def onSmartSyncComplete (s : SyncState) : SyncState × List SyncOut :=
  let s1 := clearStructureDataSM { s with isSyncing := false }
  if !s1.syncCompletedEmitted then
    ({ s1 with syncCompletedEmitted := true }, [.outSaveState, .outSyncCompleted])
  else
    (s1, [.outSaveState])

mutual

/-- Route the effects a drive-manager call emitted synchronously: signals
run the connected SyncManager slot at once (Qt direct connection on one
thread), everything else passes through outward.  The fuel bounds the
synchronous signal-recursion depth, which in the source is small and
statically bounded; every theorem quantifies over the fuel. -/
def dispatchDrive (fuel : Nat) (env : SyncEnv) (effs : List DriveEffect) (s : SyncState) :
    SyncState × List SyncOut :=
  match fuel, effs with
  | _, [] => (s, [])
  | 0, _ :: _ => (s, [])
  | f + 1, e :: rest =>
      let first : SyncState × List SyncOut :=
        match e with
        | .emitError msg => onErrorSM msg s
        | .emitAuthChanged b => onAuthChangedF f env b s
        | .emitSyncComplete => onFolderCreated f env s
        | .emitSmartSyncComplete => onSmartSyncComplete s
        | .emitUploadComplete noteId ok => onUploadComplete noteId ok s
        | .emitDownloadComplete noteId _content ok => onDownloadComplete noteId ok s
        | .emitDeleteComplete noteId ok => onDeleteComplete noteId ok s
        | .emitNotesListReceived => compareNotes s
        | other => (s, [.drv other])
      let rest2 := dispatchDrive f env rest first.1
      (rest2.1, first.2 ++ rest2.2)

/-- SyncManager::syncNow: refuse while syncing; fail without
authentication; otherwise raise the syncing flag, reset the one-shot guard,
announce the start, and ask the drive for the note listing. -/
def syncNowF (fuel : Nat) (env : SyncEnv) (s : SyncState) : SyncState × List SyncOut :=
  match fuel with
  | 0 => (s, [])
  | f + 1 =>
      if s.isSyncing then (s, [])
      else
        let a := isAuthenticatedM env.now s.drive
        let d := dispatchDrive f env a.2.2 { s with drive := a.2.1 }
        if !a.1 then
          (d.1, d.2 ++ [.outSyncFailed "Not authenticated with Google Drive"])
        else
          let s2 := { d.1 with isSyncing := true, syncCompletedEmitted := false }
          let l := listNotes env.now s2.drive
          let d2 := dispatchDrive f env l.2 { s2 with drive := l.1 }
          (d2.1, d.2 ++ [.outSyncStarted] ++ d2.2)

/-- SyncManager::performAutoSync: only when auto-sync is on and no sync is
running, reset the guard and run syncNow. -/
def performAutoSyncF (fuel : Nat) (env : SyncEnv) (s : SyncState) : SyncState × List SyncOut :=
  match fuel with
  | 0 => (s, [])
  | f + 1 =>
      if s.autoSyncEnabled && !s.isSyncing then
        syncNowF f env { s with syncCompletedEmitted := false }
      else
        (s, [])

/-- SyncManager::startAutoSync: record the interval, enable auto-sync,
reset the guard, and — when the drive reports authenticated — start the
timer and perform an initial sync. -/
def startAutoSyncF (fuel : Nat) (env : SyncEnv) (minutes : Int) (s : SyncState) :
    SyncState × List SyncOut :=
  match fuel with
  | 0 => (s, [])
  | f + 1 =>
      let s1 := { s with autoSyncInterval := minutes, autoSyncEnabled := true,
                         syncCompletedEmitted := false }
      let a := isAuthenticatedM env.now s1.drive
      let d := dispatchDrive f env a.2.2 { s1 with drive := a.2.1 }
      if a.1 then
        let p := performAutoSyncF f env d.1
        (p.1, d.2 ++ [.outStartTimer minutes] ++ p.2)
      else
        (d.1, d.2)

/-- SyncManager::onAuthenticationChanged: a successful authentication
resets the guard, creates the remote notes folder and possibly restarts
auto-sync; a lost authentication stops auto-sync and resets the guard.  The
signal is re-emitted outward at the end either way. -/
def onAuthChangedF (fuel : Nat) (env : SyncEnv) (authenticated : Bool) (s : SyncState) :
    SyncState × List SyncOut :=
  match fuel with
  | 0 => (s, [])
  | f + 1 =>
      if authenticated then
        let s1 := { s with syncCompletedEmitted := false }
        let c := createNotesFolder env.now s1.drive
        let d := dispatchDrive f env c.2 { s1 with drive := c.1 }
        let r :=
          if d.1.autoSyncEnabled then
            startAutoSyncF f env d.1.autoSyncInterval d.1
          else
            (d.1, [])
        (r.1, d.2 ++ r.2 ++ [.outAuthChanged true])
      else
        let s1 := { s with autoSyncEnabled := false, syncCompletedEmitted := false }
        (s1, [.outStopTimer, .outAuthChanged false])

/-- SyncManager::onFolderCreated (the slot connected to the drive's
syncComplete signal): adopt the drive's folder id on both sides, emit
syncCompleted under the one-shot guard, then either continue a manual sync
with the hierarchical upload or, idle with auto-sync on, start a sync. -/
def onFolderCreated (fuel : Nat) (env : SyncEnv) (s : SyncState) : SyncState × List SyncOut :=
  match fuel with
  | 0 => (s, [])
  | f + 1 =>
      let s1 := { s with syncFolderId := s.drive.syncFolderId }
      let s2 := { s1 with drive := setSyncFolder s1.syncFolderId s1.drive }
      let emitted : SyncState × List SyncOut :=
        if !s2.syncCompletedEmitted then
          ({ s2 with syncCompletedEmitted := true }, [.outSyncCompleted])
        else
          (s2, [])
      let s3 := emitted.1
      if s3.isSyncing then
        let c := createSubfoldersAndUploadNotes env.now env.hash env.dbFolderStructure s3.drive
        let d := dispatchDrive f env c.2 { s3 with drive := c.1 }
        (d.1, emitted.2 ++ d.2)
      else if s3.autoSyncEnabled then
        let r := syncNowF f env s3
        (r.1, emitted.2 ++ r.2)
      else
        (s3, emitted.2)

end

/-- SyncManager::uploadAllNotes: fail without authentication; reset the
guard; an empty local structure completes at once (guarded emission);
otherwise hand the structure to the drive manager, reset the guard again,
and announce the start. -/
def uploadAllNotesSM (fuel : Nat) (env : SyncEnv) (s : SyncState) : SyncState × List SyncOut :=
  match fuel with
  | 0 => (s, [])
  | f + 1 =>
      let a := isAuthenticatedM env.now s.drive
      let d := dispatchDrive f env a.2.2 { s with drive := a.2.1 }
      if !a.1 then
        (d.1, d.2 ++ [.outSyncFailed "Not authenticated"])
      else
        let s1 := { d.1 with syncCompletedEmitted := false }
        if env.dbFolderStructure.isEmpty then
          if !s1.syncCompletedEmitted then
            ({ s1 with syncCompletedEmitted := true }, d.2 ++ [.outSyncCompleted])
          else
            (s1, d.2)
        else
          let u := uploadFolderStructure env.now env.hash env.dbFolderStructure s1.drive
          let d2 := dispatchDrive f env u.2 { s1 with drive := u.1 }
          let s2 := { d2.1 with syncCompletedEmitted := false }
          (s2, d.2 ++ d2.2 ++ [.outSyncStarted])

/-- SyncManager::smartSync: fail without authentication; reset the guard;
clear structure data; create the root folder if the manager has no sync
folder id yet, else run the drive's smart sync, with the syncing flag
raised first in both branches. -/
def smartSyncSM (fuel : Nat) (env : SyncEnv) (s : SyncState) : SyncState × List SyncOut :=
  match fuel with
  | 0 => (s, [])
  | f + 1 =>
      let a := isAuthenticatedM env.now s.drive
      let d := dispatchDrive f env a.2.2 { s with drive := a.2.1 }
      if !a.1 then
        (d.1, d.2 ++ [.outSyncFailed "Not authenticated"])
      else
        let s1 := clearStructureDataSM { d.1 with syncCompletedEmitted := false }
        if s1.syncFolderId == "" then
          let s2 := { s1 with isSyncing := true }
          let c := createNotesFolder env.now s2.drive
          let d2 := dispatchDrive f env c.2 { s2 with drive := c.1 }
          (d2.1, d.2 ++ d2.2)
        else
          let s2 := { s1 with isSyncing := true }
          let m := smartSyncDrive env.now s2.drive
          let d2 := dispatchDrive f env m.2 { s2 with drive := m.1 }
          (d2.1, d.2 ++ d2.2)

/-- SyncManager::syncAllNotes: fail without authentication; reset the
guard; clear structure data; create the root folder if none is known, else
raise the syncing flag and run uploadAllNotes (the download half of the
intended two-phase sync is not implemented). -/
def syncAllNotesSM (fuel : Nat) (env : SyncEnv) (s : SyncState) : SyncState × List SyncOut :=
  match fuel with
  | 0 => (s, [])
  | f + 1 =>
      let a := isAuthenticatedM env.now s.drive
      let d := dispatchDrive f env a.2.2 { s with drive := a.2.1 }
      if !a.1 then
        (d.1, d.2 ++ [.outSyncFailed "Not authenticated"])
      else
        let s1 := clearStructureDataSM { d.1 with syncCompletedEmitted := false }
        if s1.syncFolderId == "" then
          let s2 := { s1 with isSyncing := true }
          let c := createNotesFolder env.now s2.drive
          let d2 := dispatchDrive f env c.2 { s2 with drive := c.1 }
          (d2.1, d.2 ++ d2.2)
        else
          let s2 := { s1 with isSyncing := true }
          let u := uploadAllNotesSM f env s2
          (u.1, d.2 ++ u.2)

/-- The asynchronous completion notifications that can converge on one sync
session, as enumerated by the claim: root-folder creation or lookup
(syncComplete), the smart-sync structure check (smartSyncComplete), note
uploads, downloads, deletions, the note listing, and error signals. -/
inductive SyncEvent where
  | evFolderCreated
  | evSmartSyncComplete
  | evUploadComplete (noteId : String) (ok : Bool)
  | evDownloadComplete (noteId content : String) (ok : Bool)
  | evDeleteComplete (noteId : String) (ok : Bool)
  | evNotesListReceived
  | evError (msg : String)
  deriving Repr

/-- Deliver one asynchronous completion to the corresponding slot. -/
def applySyncEvent (fuel : Nat) (env : SyncEnv) (s : SyncState) :
    SyncEvent → SyncState × List SyncOut
  | .evFolderCreated => onFolderCreated fuel env s
  | .evSmartSyncComplete => onSmartSyncComplete s
  | .evUploadComplete noteId ok => onUploadComplete noteId ok s
  | .evDownloadComplete noteId _content ok => onDownloadComplete noteId ok s
  | .evDeleteComplete noteId ok => onDeleteComplete noteId ok s
  | .evNotesListReceived => compareNotes s
  | .evError msg => onErrorSM msg s

/-- Deliver a list of asynchronous completions in order, accumulating the
emitted outputs. -/
def runSyncEvents (fuel : Nat) (env : SyncEnv) :
    List SyncEvent → SyncState → SyncState × List SyncOut
  | [], s => (s, [])
  | ev :: rest, s =>
      let first := applySyncEvent fuel env s ev
      let rest2 := runSyncEvents fuel env rest first.1
      (rest2.1, first.2 ++ rest2.2)

/-- The ways a sync session is started from the public interface. -/
inductive SyncInvocation where
  | invSyncNow
  | invUploadAll
  | invSmartSync
  | invSyncAll
  deriving Repr

/-- Run the chosen entry point. -/
def startInvocation (fuel : Nat) (env : SyncEnv) (inv : SyncInvocation) (s : SyncState) :
    SyncState × List SyncOut :=
  match inv with
  | .invSyncNow => syncNowF fuel env s
  | .invUploadAll => uploadAllNotesSM fuel env s
  | .invSmartSync => smartSyncSM fuel env s
  | .invSyncAll => syncAllNotesSM fuel env s

/-- Count syncCompleted notifications in an output list. -/
def countCompleted (outs : List SyncOut) : Nat :=
  (outs.filter (fun o => o == SyncOut.outSyncCompleted)).length

/-- Outgoing network requests among the drive effects. -/
def isNetworkRequest : DriveEffect → Bool
  | .reqTokenRefresh _ => true
  | .reqUploadMetadata _ _ _ _ => true
  | .reqList _ => true
  | .reqCreateFolder _ _ => true
  | .reqCreateRootFolder => true
  | .reqFindFolder => true
  | .reqListSubfolders _ => true
  | .reqListNotesInFolder _ _ => true
  | _ => false

/-- Subfolder-create requests. -/
def isFolderCreateReq : DriveEffect → Bool
  | .reqCreateFolder _ _ => true
  | _ => false

/-- Note-create requests: an upload whose note id is empty creates a new
remote file (POST in the source). -/
def isNoteCreateReq : DriveEffect → Bool
  | .reqUploadMetadata noteId _ _ _ => noteId == ""
  | _ => false

/-- Note-update requests: an upload addressing an existing remote id (PUT in
the source). -/
def isNoteUpdateReq : DriveEffect → Bool
  | .reqUploadMetadata noteId _ _ _ => !(noteId == "")
  | _ => false

/-- Drive effects whose synchronous delivery to SyncManager cannot emit
syncCompleted or reset the one-shot guard: everything except the signals
routed to guard-touching or emitting slots. -/
def benignEffect : DriveEffect → Bool
  | .emitAuthChanged _ => false
  | .emitSyncComplete => false
  | .emitSmartSyncComplete => false
  | .emitUploadComplete _ _ => false
  | .emitDownloadComplete _ _ _ => false
  | .emitDeleteComplete _ _ => false
  | .emitNotesListReceived => false
  | _ => true

/-- Emission budget of a SyncManager state: one syncCompleted remains
available while the one-shot guard is down, none once it is up. -/
def phi (s : SyncState) : Nat :=
  if s.syncCompletedEmitted then 0 else 1

/-- A concrete authenticated drive state with a known sync folder, used by
the closed witness and counterexample theorems. -/
def driveWitness : DriveState :=
  { driveStateBase with
      accessToken := "tok"
      refreshToken := "refresh"
      isAuthenticatedFlag := true
      syncFolderId := "root1" }

/-- A concrete idle SyncManager state over driveWitness with auto-sync off. -/
def syncWitness : SyncState :=
  { drive := driveWitness
    isSyncing := false
    autoSyncEnabled := false
    autoSyncInterval := 15
    syncFolderId := "root1"
    syncCompletedEmitted := false
    pendingUploads := []
    pendingDownloads := []
    pendingDeletes := []
    localToRemoteIdMap := []
    remoteToLocalIdMap := [] }

/-- A concrete stand-in for the MD5 hex digest (the digest is abstract in
every general theorem; closed theorems need some computable function). -/
def witnessHash : String → String :=
  fun content => "md5-" ++ content

/-- A concrete environment: the scenario structure from the spec, one folder
Work holding one note Plan. -/
def witnessEnv : SyncEnv :=
  { now := 0, hash := witnessHash, dbFolderStructure := [("Work", [("Plan", "Q1 goals")])] }

/-- The local structure of the idempotency scenario. -/
def c1Local : FolderStructure := [("Work", [("Plan", "Q1 goals")])]

/-- First reconciliation run, step 1: the reconciler is invoked against an
empty remote root; it issues the subfolder listing. -/
def c1Run1Start : DriveState × List DriveEffect :=
  createSubfoldersAndUploadNotes 0 witnessHash c1Local driveWitness

/-- First run, step 2: the listing returns no subfolders; the reconciler
requests creation of Work. -/
def c1Run1Discovery : DriveState × List DriveEffect :=
  handleListSubfoldersResponse 0 witnessHash (.success []) c1Run1Start.1

/-- First run, step 3: Work is created remotely as fid1; the reconciler
moves on and uploads the note Plan into it (a note-create). -/
def c1Run1Create : DriveState × List DriveEffect :=
  handleCreateSubfolderResponse 0 witnessHash (.success ("fid1", "Work")) c1Run1Discovery.1

/-- Second reconciliation run over the unchanged local structure: invoked
again, it clears its maps and issues the subfolder listing. -/
def c1Run2Start : DriveState × List DriveEffect :=
  createSubfoldersAndUploadNotes 0 witnessHash c1Local c1Run1Create.1

/-- Second run, step 2: the listing now reflects the first run's output
(Work exists as fid1).  The handler requests Work's note listing and then
immediately continues into the upload phase. -/
def c1Run2Discovery : DriveState × List DriveEffect :=
  handleListSubfoldersResponse 0 witnessHash (.success [("fid1", "Work")]) c1Run2Start.1

/-- Second run, step 3: Work's note listing returns Plan.md (the first
run's upload), arriving only after the upload phase already ran. -/
def c1Run2NoteListing : DriveState × List DriveEffect :=
  handleListNotesInFolderResponse "Work" (.success [("nid1", "Plan.md")]) c1Run2Discovery.1

/-- The state reached by completing an auth-code exchange (gaining token
tok) and then suffering a failed token refresh: the failure clears the
authentication flag but leaves the access token in place. -/
def c8ViolationState : DriveState :=
  applyDriveOps (driveInit none)
    [.opAuthResponse 0
       (.success { accessTokenStr := "tok", refreshTokenStr := "r", expiresIn := 3600 }),
     .opRefreshResponse 10 (.failure "server rejected")]

/-- An authenticated state whose pending structure names a folder (Work)
that has no entry in the subfolder-id map. -/
def c10State : DriveState :=
  { driveWitness with pendingFolderStructure := [("Work", [("Plan", "x")])] }

/-
  Theorems.  Each claim Cn of the specification gets exactly one theorem
  (plus, where required, a closed witness or counterexample).  Helper lemmas
  are shared.
-/

/-- Helper: with the flag set, a nonempty token and an invalid (absent)
expiry, isAuthenticated reports true and has no side effects. -/
theorem isAuthenticatedM_good (now : Int) (s : DriveState)
    (h1 : s.isAuthenticatedFlag = true) (h2 : s.accessToken ≠ "")
    (h3 : s.tokenExpiry = none) :
    isAuthenticatedM now s = (true, s, []) := by
  have hb : (s.accessToken == "") = false := beq_eq_false_iff_ne.mpr h2
  simp [isAuthenticatedM, expiredRefreshCheck, h1, h3, hb]

/-- Helper: with a nonempty token and an invalid expiry, addAuthHeader does
nothing observable. -/
theorem addAuthHeader_good (now : Int) (s : DriveState)
    (h2 : s.accessToken ≠ "") (h3 : s.tokenExpiry = none) :
    addAuthHeader now s = (s, []) := by
  have hb : (s.accessToken == "") = false := beq_eq_false_iff_ne.mpr h2
  simp [addAuthHeader, expiredRefreshCheck, h3, hb]

/-- Claim C5: refreshToken invoked while the stored refresh token is empty
emits the no-refresh-token error (in its user-friendly translation), issues
no network request, and leaves the whole state — access token, refresh
token, expiry and authentication flag — exactly as it was. -/
theorem refreshToken_empty_no_request (s : DriveState) (h : s.refreshToken = "") :
    refreshTokenM s =
      (s, [.emitError "Google Drive connection has expired. Please reconnect to Google Drive."]) := by
  have hmsg : makeUserFriendlyError "No refresh token available" =
      "Google Drive connection has expired. Please reconnect to Google Drive." := by decide
  simp [refreshTokenM, h, hmsg]

/-- Witness for C5 at a concrete state whose refresh token is empty. -/
theorem refreshToken_empty_no_request_witness :
    refreshTokenM { driveStateBase with accessToken := "tok", isAuthenticatedFlag := true } =
      ({ driveStateBase with accessToken := "tok", isAuthenticatedFlag := true },
       [.emitError "Google Drive connection has expired. Please reconnect to Google Drive."]) :=
  refreshToken_empty_no_request
    { driveStateBase with accessToken := "tok", isAuthenticatedFlag := true } rfl

/-- Claim C6: a successful token-refresh reply updates only the access token
and the expiry (now plus expires_in) — the structure-update form of the
right-hand side exhibits every other field, including the stored refresh
token and the authentication flag, as unchanged — and persists the resulting
token state immediately (the saveTokens effect carries the new access token,
the old refresh token, and the new expiry). -/
theorem tokenRefresh_success_frame (now : Int) (resp : TokenResponse) (s : DriveState) :
    handleTokenRefresh now (.success resp) s =
      ({ s with accessToken := resp.accessTokenStr,
                tokenExpiry := some (now + resp.expiresIn) },
       [.saveTokens resp.accessTokenStr s.refreshToken (some (now + resp.expiresIn))]) :=
  rfl

/-- Claim C7 counterexample: the claim says a token response without a
refresh_token field leaves a previously stored refresh token in place.  In
the code the field is read unconditionally (QJson yields the empty string
for the absent key) and assigned, so the stored token "refresh" is wiped. -/
theorem authResponse_clears_refresh_token :
    (handleAuthResponse 0
        (.success { accessTokenStr := "newTok", refreshTokenStr := "", expiresIn := 3600 })
        driveWitness).1.refreshToken = "" ∧
    driveWitness.refreshToken = "refresh" := by
  decide

/-- Claim C7 (amended): a successful authorization-code exchange stores the
access token, sets expiry to now plus expires_in, flags authentication, and
persists immediately; but the refresh token is overwritten unconditionally
with the response field (which is empty when the response omits it), never
retained from a previous grant. -/
theorem authResponse_overwrites_token_state (now : Int) (resp : TokenResponse) (s : DriveState) :
    handleAuthResponse now (.success resp) s =
      ({ s with accessToken := resp.accessTokenStr,
                refreshToken := resp.refreshTokenStr,
                tokenExpiry := some (now + resp.expiresIn),
                isAuthenticatedFlag := true },
       [.saveTokens resp.accessTokenStr resp.refreshTokenStr (some (now + resp.expiresIn)),
        .emitAuthChanged true]) :=
  rfl

/-- Claim C2 counterexample: the claim requires uploadNoteToFolder to reject
content whose trimmed value equals the trimmed title.  The source only
performs that check in uploadNote; uploadNoteToFolder, called here on an
authenticated state with content equal to the title, emits no error and
issues the metadata network request. -/
theorem uploadNoteToFolder_title_equal_sends_request :
    uploadNoteToFolder 0 "" "Plan" "Plan" "fid" driveWitness =
      (driveWitness, [.reqUploadMetadata "" "Plan" "Plan" "fid"]) := by
  decide

/-- Claim C2 (amended): on an authenticated state, uploadNote rejects empty
content, whitespace-only content, and content whose trimmed value equals the
trimmed title — each locally, with a distinct message per sub-case, leaving
the state untouched and issuing no network request; uploadNoteToFolder does
the same for the empty and whitespace-only sub-cases only (it has no
title-equality check). -/
theorem upload_validation_rejections (now : Int) (noteId content title folderId : String)
    (s : DriveState)
    (hflag : s.isAuthenticatedFlag = true) (htok : s.accessToken ≠ "")
    (hexp : s.tokenExpiry = none) (hsf : s.syncFolderId ≠ "") (hfid : folderId ≠ "") :
    (content = "" →
      uploadNote now noteId content title s =
        (s, [.emitError "Cannot sync empty notes. Please add some content to your note first."]) ∧
      uploadNoteToFolder now noteId content title folderId s =
        (s, [.emitError "Cannot sync empty notes. Please add some content to your note first."])) ∧
    (content ≠ "" → qtTrim content = "" →
      uploadNote now noteId content title s =
        (s, [.emitError
          "Cannot sync notes with only spaces. Please add some content to your note first."]) ∧
      uploadNoteToFolder now noteId content title folderId s =
        (s, [.emitError
          "Cannot sync notes with only spaces. Please add some content to your note first."])) ∧
    (content ≠ "" → qtTrim content ≠ "" → qtTrim content = qtTrim title →
      uploadNote now noteId content title s =
        (s, [.emitError
          "Note content is just the title - this indicates an error in content passing"])) := by
  have hA : isAuthenticatedM now s = (true, s, []) :=
    isAuthenticatedM_good now s hflag htok hexp
  have hsfb : (s.syncFolderId == "") = false := beq_eq_false_iff_ne.mpr hsf
  have hfidb : (folderId == "") = false := beq_eq_false_iff_ne.mpr hfid
  have hmEmpty : makeUserFriendlyError "Note content is empty" =
      "Cannot sync empty notes. Please add some content to your note first." := by decide
  have hmWs : makeUserFriendlyError "Note content is only whitespace" =
      "Cannot sync notes with only spaces. Please add some content to your note first." := by
    decide
  refine ⟨?_, ?_, ?_⟩
  · intro hc
    subst hc
    constructor
    · simp [uploadNote, hA, hsfb, hmEmpty]
    · simp [uploadNoteToFolder, hA, hfidb, hmEmpty]
  · intro hc htrim
    have hcb : (content == "") = false := beq_eq_false_iff_ne.mpr hc
    have htb : (qtTrim content == "") = true := beq_iff_eq.mpr htrim
    constructor
    · simp [uploadNote, hA, hsfb, hcb, htb, hmWs]
    · simp [uploadNoteToFolder, hA, hfidb, hcb, htb, hmWs]
  · intro hc htrim heq
    have hcb : (content == "") = false := beq_eq_false_iff_ne.mpr hc
    have htb : (qtTrim content == "") = false := beq_eq_false_iff_ne.mpr htrim
    have heqb : (qtTrim content == qtTrim title) = true := beq_iff_eq.mpr heq
    simp [uploadNote, hA, hsfb, hcb, htb, heqb]

/-- Witness for C2 (amended) at whitespace-only content. -/
theorem upload_validation_rejections_witness :
    uploadNote 0 "" "   " "T" driveWitness =
      (driveWitness,
       [.emitError
         "Cannot sync notes with only spaces. Please add some content to your note first."]) :=
  ((upload_validation_rejections 0 "" "   " "T" "fid" driveWitness rfl (by decide) rfl
      (by decide) (by decide)).2.1 (by decide) (by decide)).1

/-- Claim C8 counterexample: completing authentication and then suffering a
failed token refresh leaves the access token nonempty while isAuthenticated
reports false — so the claimed equivalence between an empty access token and
reporting not-authenticated fails in a reachable state. -/
theorem auth_invariant_violated_after_failed_refresh :
    reportedAuthenticated 20 c8ViolationState = false ∧
    c8ViolationState.accessToken = "tok" := by
  decide

/-- Claim C8 (amended): in every state reachable through the token-lifecycle
operations (loading tokens, auth completion, refresh handling, logout,
forced re-authentication, expiry checks), an empty access token implies the
manager reports not authenticated.  The converse direction of the claimed
equivalence fails (see the counterexample): after a failed refresh the
manager reports not authenticated while still holding a nonempty token. -/
theorem empty_token_reports_unauthenticated (file : Option TokenFile) (ops : List DriveOp)
    (now : Int) (h : (applyDriveOps (driveInit file) ops).accessToken = "") :
    reportedAuthenticated now (applyDriveOps (driveInit file) ops) = false := by
  have hgen : ∀ s : DriveState, s.accessToken = "" →
      reportedAuthenticated now s = false := by
    intro s hs
    simp [reportedAuthenticated, isAuthenticatedM, hs]
  exact hgen _ h

/-- Witness for C8 (amended) at the freshly constructed manager (no token
file), whose access token is empty. -/
theorem empty_token_reports_unauthenticated_witness :
    reportedAuthenticated 0 (applyDriveOps (driveInit none) []) = false :=
  empty_token_reports_unauthenticated none [] 0 (by decide)

/-- Helper: refreshToken never changes the state. -/
theorem refreshTokenM_fst (s : DriveState) : (refreshTokenM s).1 = s := by
  unfold refreshTokenM
  split <;> rfl

/-- Helper: the first refresh block never changes the state. -/
theorem refreshSoonStep_fst (now : Int) (s : DriveState) :
    (refreshSoonStep now s).1 = s := by
  obtain ⟨atok, rtok, texp, flag, sf, sub, pfs, idx, rh, rid, rfid, sc⟩ := s
  rcases texp with _ | e
  · rfl
  · simp only [refreshSoonStep]
    split_ifs
    · exact refreshTokenM_fst _
    · rfl

/-- Helper: the second refresh block changes at most the flag. -/
theorem refreshExpiredStep_fst (now : Int) (s : DriveState) :
    ∃ b, (refreshExpiredStep now s).1 = { s with isAuthenticatedFlag := b } := by
  obtain ⟨atok, rtok, texp, flag, sf, sub, pfs, idx, rh, rid, rfid, sc⟩ := s
  rcases texp with _ | e
  · exact ⟨flag, rfl⟩
  · simp only [refreshExpiredStep]
    split_ifs
    · rw [refreshTokenM_fst]
      exact ⟨flag, rfl⟩
    · exact ⟨false, rfl⟩
    · exact ⟨flag, rfl⟩

/-- Helper: refreshTokenIfNeeded changes at most the authentication flag. -/
theorem refreshTokenIfNeeded_fst (now : Int) (s : DriveState) :
    ∃ b, (refreshTokenIfNeeded now s).1 = { s with isAuthenticatedFlag := b } := by
  simp only [refreshTokenIfNeeded]
  rw [refreshSoonStep_fst]
  exact refreshExpiredStep_fst now s

/-- Helper: the shared expiry check changes at most the flag. -/
theorem expiredRefreshCheck_fst (now : Int) (s : DriveState) :
    ∃ b, (expiredRefreshCheck now s).1 = { s with isAuthenticatedFlag := b } := by
  obtain ⟨atok, rtok, texp, flag, sf, sub, pfs, idx, rh, rid, rfid, sc⟩ := s
  rcases texp with _ | e
  · exact ⟨flag, rfl⟩
  · simp only [expiredRefreshCheck]
    split_ifs
    · exact refreshTokenIfNeeded_fst now _
    · exact ⟨flag, rfl⟩

/-- Helper: the isAuthenticated call changes at most the flag. -/
theorem isAuthenticatedM_fst (now : Int) (s : DriveState) :
    ∃ b, (isAuthenticatedM now s).2.1 = { s with isAuthenticatedFlag := b } := by
  unfold isAuthenticatedM
  split_ifs
  · exact expiredRefreshCheck_fst now s
  · exact ⟨s.isAuthenticatedFlag, rfl⟩

/-- Helper: addAuthHeader changes at most the flag. -/
theorem addAuthHeader_fst (now : Int) (s : DriveState) :
    ∃ b, (addAuthHeader now s).1 = { s with isAuthenticatedFlag := b } := by
  unfold addAuthHeader
  split_ifs
  · exact expiredRefreshCheck_fst now s
  · exact ⟨s.isAuthenticatedFlag, rfl⟩

/-- Helper: uploadNoteToFolder changes at most the flag. -/
theorem uploadNoteToFolder_fst (now : Int) (noteId content title folderId : String)
    (s : DriveState) :
    ∃ b, (uploadNoteToFolder now noteId content title folderId s).1 =
      { s with isAuthenticatedFlag := b } := by
  obtain ⟨b1, hb1⟩ := isAuthenticatedM_fst now s
  obtain ⟨b2, hb2⟩ := addAuthHeader_fst now { s with isAuthenticatedFlag := b1 }
  simp only [uploadNoteToFolder, hb1]
  split_ifs <;>
    first
      | exact ⟨b1, rfl⟩
      | (rw [hb2]; exact ⟨b2, rfl⟩)

/-- Helper: under a set flag, a nonempty token and an invalid expiry,
createFolder issues exactly the subfolder-create request. -/
theorem createFolder_good (now : Int) (folderName : String) (s : DriveState)
    (hflag : s.isAuthenticatedFlag = true) (htok : s.accessToken ≠ "")
    (hexp : s.tokenExpiry = none) (hsf : s.syncFolderId ≠ "") :
    createFolder now folderName s = (s, [.reqCreateFolder folderName s.syncFolderId]) := by
  have hsfb : (s.syncFolderId == "") = false := beq_eq_false_iff_ne.mpr hsf
  simp [createFolder, isAuthenticatedM_good now s hflag htok hexp,
        addAuthHeader_good now s htok hexp, hsfb]

/-- Helper: in the good state, listNotesInFolder issues exactly the listing
request. -/
theorem listNotesInFolder_good (now : Int) (folderId folderName : String) (s : DriveState)
    (hflag : s.isAuthenticatedFlag = true) (htok : s.accessToken ≠ "")
    (hexp : s.tokenExpiry = none) :
    listNotesInFolder now folderId folderName s =
      (s, [.reqListNotesInFolder folderId folderName]) := by
  simp [listNotesInFolder, isAuthenticatedM_good now s hflag htok hexp,
        addAuthHeader_good now s htok hexp]

/-- Helper: in the good state, uploadNoteToFolder leaves the state unchanged
and emits either a single local error or the single metadata request. -/
theorem uploadNoteToFolder_good_shape (now : Int) (noteId content title folderId : String)
    (s : DriveState)
    (hflag : s.isAuthenticatedFlag = true) (htok : s.accessToken ≠ "")
    (hexp : s.tokenExpiry = none) :
    (uploadNoteToFolder now noteId content title folderId s).1 = s ∧
    ((∃ m, (uploadNoteToFolder now noteId content title folderId s).2 = [.emitError m]) ∨
      (uploadNoteToFolder now noteId content title folderId s).2 =
        [.reqUploadMetadata noteId content title folderId]) := by
  simp only [uploadNoteToFolder, isAuthenticatedM_good now s hflag htok hexp,
             addAuthHeader_good now s htok hexp]
  split_ifs <;> simp

/-- Helper: in the good state, createSubfoldersAndUploadNotes (with a known
sync folder) clears the structure maps, stores the pending structure, resets
the cursor and issues exactly the subfolder listing. -/
theorem createSubfoldersAndUploadNotes_eq (now : Int) (hash : String → String)
    (fs : FolderStructure) (s : DriveState)
    (hflag : s.isAuthenticatedFlag = true) (htok : s.accessToken ≠ "")
    (hexp : s.tokenExpiry = none) (hsf : s.syncFolderId ≠ "") :
    createSubfoldersAndUploadNotes now hash fs s =
      ({ s with subfolderIds := [], remoteFolderIds := [], remoteNoteIds := [],
                remoteNoteHashes := [], structureChecked := false,
                pendingFolderStructure := fs, pendingSubfolderIndex := 0 },
       [.reqListSubfolders s.syncFolderId]) := by
  have hsfb : (s.syncFolderId == "") = false := beq_eq_false_iff_ne.mpr hsf
  have hgood : isAuthenticatedM now
      { s with subfolderIds := [], remoteFolderIds := [], remoteNoteIds := [],
               remoteNoteHashes := [], structureChecked := false,
               pendingFolderStructure := fs, pendingSubfolderIndex := 0 } =
      (true, { s with subfolderIds := [], remoteFolderIds := [], remoteNoteIds := [],
                      remoteNoteHashes := [], structureChecked := false,
                      pendingFolderStructure := fs, pendingSubfolderIndex := 0 }, []) :=
    isAuthenticatedM_good now _ hflag htok hexp
  have hhdr : addAuthHeader now
      { s with subfolderIds := [], remoteFolderIds := [], remoteNoteIds := [],
               remoteNoteHashes := [], structureChecked := false,
               pendingFolderStructure := fs, pendingSubfolderIndex := 0 } =
      ({ s with subfolderIds := [], remoteFolderIds := [], remoteNoteIds := [],
                remoteNoteHashes := [], structureChecked := false,
                pendingFolderStructure := fs, pendingSubfolderIndex := 0 }, []) :=
    addAuthHeader_good now _ htok hexp
  simp [createSubfoldersAndUploadNotes, hsfb, checkExistingStructure, listSubfolders,
        hgood, hhdr]

/-- Helper: lookup after insertion. -/
theorem mapGet_mapInsert (k v k2 : String) : ∀ m : List (String × String),
    mapGet (mapInsert m k v) k2 = if k = k2 then some v else mapGet m k2 := by
  intro m
  induction m with
  | nil => rfl
  | cons p rest ih =>
      obtain ⟨a, b⟩ := p
      by_cases h1 : a = k <;> by_cases h2 : k = k2 <;> by_cases h3 : a = k2 <;>
        simp_all [mapInsert, mapGet]

/-- Helper: membership after insertion. -/
theorem mapContains_mapInsert (m : List (String × String)) (k v k2 : String) :
    mapContains (mapInsert m k v) k2 = true ↔ (k = k2 ∨ mapContains m k2 = true) := by
  simp only [mapContains, mapGet_mapInsert]
  split_ifs with h <;> simp [h]

/-- Helper: uploadNotesList changes at most the flag. -/
theorem uploadNotesList_fst (now : Int) (hash : String → String) (sub : String)
    (notes : List (String × String)) : ∀ s : DriveState,
    ∃ b, (uploadNotesList now hash sub notes s).1 = { s with isAuthenticatedFlag := b } := by
  induction notes with
  | nil => intro s; exact ⟨s.isAuthenticatedFlag, rfl⟩
  | cons p rest ih =>
      intro s
      obtain ⟨t, c⟩ := p
      simp only [uploadNotesList]
      rcases h : mapGet s.remoteNoteIds t with _ | nid
      · obtain ⟨b1, hb1⟩ := uploadNoteToFolder_fst now "" c t sub s
        rw [hb1]
        exact ih _
      · split_ifs
        · obtain ⟨b1, hb1⟩ := uploadNoteToFolder_fst now nid c t sub s
          rw [hb1]
          exact ih _
        · exact ih s

/-- Helper: uploadFolderList changes at most the flag. -/
theorem uploadFolderList_fst (now : Int) (hash : String → String)
    (l : FolderStructure) : ∀ s : DriveState,
    ∃ b, (uploadFolderList now hash l s).1 = { s with isAuthenticatedFlag := b } := by
  induction l with
  | nil => intro s; exact ⟨s.isAuthenticatedFlag, rfl⟩
  | cons p rest ih =>
      intro s
      obtain ⟨g, ns⟩ := p
      simp only [uploadFolderList]
      rcases h : mapGet s.subfolderIds g with _ | gid
      · exact ih s
      · obtain ⟨b1, hb1⟩ := uploadNotesList_fst now hash gid ns s
        rw [hb1]
        exact ih _

/-- Claim C10: in the note-upload phase, a pending folder whose name has no
subfolder-id entry contributes nothing: the phase behaves exactly as if the
folder and its notes were absent — no upload request is issued for those
notes and no error signal is emitted for them (the source only writes a
debug log), so they are silently left unsynced for the run. -/
theorem unmapped_folder_notes_skipped (now : Int) (hash : String → String)
    (f : String) (notes : List (String × String)) (ys : FolderStructure) :
    ∀ (xs : FolderStructure) (s : DriveState),
      s.pendingFolderStructure = xs ++ (f, notes) :: ys →
      mapGet s.subfolderIds f = none →
      startNoteUploads now hash s = uploadFolderList now hash (xs ++ ys) s := by
  have main : ∀ (xs : FolderStructure) (s : DriveState), mapGet s.subfolderIds f = none →
      uploadFolderList now hash (xs ++ (f, notes) :: ys) s =
        uploadFolderList now hash (xs ++ ys) s := by
    intro xs
    induction xs with
    | nil =>
        intro s h
        simp only [List.nil_append, uploadFolderList, h]
    | cons p xs ih =>
        intro s h
        obtain ⟨g, ns⟩ := p
        simp only [List.cons_append, uploadFolderList]
        split
        · rename_i gid hg
          obtain ⟨b, hb⟩ := uploadNotesList_fst now hash gid ns s
          have h2 : mapGet (uploadNotesList now hash gid ns s).1.subfolderIds f = none := by
            rw [hb]
            exact h
          simp only [List.append_eq]
          rw [ih _ h2]
        · simp only [List.append_eq]
          rw [ih s h]
  intro xs s hp hf
  rw [startNoteUploads, hp, main xs s hf]

/-- Witness for C10: with Work pending but unmapped, the whole upload phase
reduces to the phase over the empty remainder. -/
theorem unmapped_folder_notes_skipped_witness :
    startNoteUploads 0 witnessHash c10State = uploadFolderList 0 witnessHash [] c10State :=
  unmapped_folder_notes_skipped 0 witnessHash "Work" [("Plan", "x")] [] [] c10State rfl rfl

/-- Helper: lookup in the empty map. -/
theorem mapGet_nil (k : String) : mapGet [] k = none := rfl

/-- Helper: insertFolderEntries only touches the two folder maps. -/
theorem insertFolderEntries_frame (files : List (String × String)) : ∀ s : DriveState,
    ∃ m1 m2, insertFolderEntries files s =
      { s with remoteFolderIds := m1, subfolderIds := m2 } := by
  induction files with
  | nil => intro s; exact ⟨s.remoteFolderIds, s.subfolderIds, rfl⟩
  | cons p rest ih =>
      intro s
      obtain ⟨fid, fname⟩ := p
      simp only [insertFolderEntries]
      obtain ⟨m1, m2, h⟩ :=
        ih { s with remoteFolderIds := mapInsert s.remoteFolderIds fname fid,
                    subfolderIds := mapInsert s.subfolderIds fname fid }
      exact ⟨m1, m2, h⟩

/-- Helper: discovery never removes a name from the subfolder map. -/
theorem insertFolderEntries_mono (files : List (String × String)) :
    ∀ (s : DriveState) (name : String),
      mapContains s.subfolderIds name = true →
      mapContains (insertFolderEntries files s).subfolderIds name = true := by
  induction files with
  | nil => intro s name h; exact h
  | cons p rest ih =>
      intro s name h
      obtain ⟨fid, fname⟩ := p
      simp only [insertFolderEntries]
      exact ih _ name ((mapContains_mapInsert _ _ _ _).mpr (Or.inr h))

/-- Helper: every listed folder name is in the subfolder map after
discovery. -/
theorem insertFolderEntries_contains (files : List (String × String)) :
    ∀ (s : DriveState) (fid fname : String), (fid, fname) ∈ files →
      mapContains (insertFolderEntries files s).subfolderIds fname = true := by
  induction files with
  | nil => intro s fid fname h; cases h
  | cons p rest ih =>
      intro s fid fname h
      obtain ⟨qid, qname⟩ := p
      rcases List.mem_cons.mp h with heq | hmem
      · cases heq
        simp only [insertFolderEntries]
        exact insertFolderEntries_mono rest _ fname
          ((mapContains_mapInsert _ _ _ _).mpr (Or.inl rfl))
      · simp only [insertFolderEntries]
        exact ih _ fid fname hmem

/-- Helper: in the good state the per-folder note-listing loop leaves the
state unchanged and emits only note-listing requests. -/
theorem listNotesForFolders_shape (now : Int) : ∀ (keys : List String) (s : DriveState),
    s.isAuthenticatedFlag = true → s.accessToken ≠ "" → s.tokenExpiry = none →
    (listNotesForFolders now keys s).1 = s ∧
    ∀ e ∈ (listNotesForFolders now keys s).2,
      ∃ fid k, e = DriveEffect.reqListNotesInFolder fid k := by
  intro keys
  induction keys with
  | nil =>
      intro s _ _ _
      exact ⟨rfl, by simp [listNotesForFolders]⟩
  | cons k rest ih =>
      intro s hflag htok hexp
      simp only [listNotesForFolders]
      split
      · rename_i fid hk
        rw [listNotesInFolder_good now fid k s hflag htok hexp]
        obtain ⟨h1, h2⟩ := ih s hflag htok hexp
        refine ⟨h1, ?_⟩
        intro e he
        rcases List.mem_append.mp he with hl | hr
        · rcases List.mem_singleton.mp hl with rfl
          exact ⟨fid, k, rfl⟩
        · exact h2 e hr
      · obtain ⟨h1, h2⟩ := ih s hflag htok hexp
        refine ⟨h1, ?_⟩
        intro e he
        rcases List.mem_append.mp he with hl | hr
        · cases hl
        · exact h2 e hr

/-- Helper: when every pending folder from the cursor onward already has a
subfolder-id entry, createNextSubfolder only skips forward and lands in the
note-upload phase without issuing any request. -/
theorem createNextSubfolderAux_all_present (now : Int) (hash : String → String) :
    ∀ (k : Nat) (s : DriveState),
      s.pendingFolderStructure.length - s.pendingSubfolderIndex = k →
      s.pendingSubfolderIndex ≤ s.pendingFolderStructure.length →
      (∀ i (h : i < s.pendingFolderStructure.length), s.pendingSubfolderIndex ≤ i →
        mapContains s.subfolderIds (s.pendingFolderStructure.get ⟨i, h⟩).1 = true) →
      createNextSubfolderAux now hash k s =
        startNoteUploads now hash
          { s with pendingSubfolderIndex := s.pendingFolderStructure.length } := by
  intro k
  induction k with
  | zero =>
      intro s hk hle _hall
      have hidx : s.pendingSubfolderIndex = s.pendingFolderStructure.length := by omega
      simp only [createNextSubfolderAux]
      rw [← hidx]
  | succ k ih =>
      intro s hk hle hall
      have hlt : s.pendingSubfolderIndex < s.pendingFolderStructure.length := by omega
      have hnle : ¬ s.pendingFolderStructure.length ≤ s.pendingSubfolderIndex := by omega
      have hc := hall s.pendingSubfolderIndex hlt (Nat.le_refl _)
      simp only [createNextSubfolderAux, dif_neg hnle, hc, if_true]
      exact ih { s with pendingSubfolderIndex := s.pendingSubfolderIndex + 1 }
        (by simp; omega) (by simp; omega)
        (fun i h hi => hall i h (by simp at hi; omega))

/-- Helper: the same statement phrased for createNextSubfolder itself. -/
theorem createNextSubfolder_all_present (now : Int) (hash : String → String) :
    ∀ (k : Nat) (s : DriveState),
      s.pendingFolderStructure.length - s.pendingSubfolderIndex = k →
      s.pendingSubfolderIndex ≤ s.pendingFolderStructure.length →
      (∀ i (h : i < s.pendingFolderStructure.length), s.pendingSubfolderIndex ≤ i →
        mapContains s.subfolderIds (s.pendingFolderStructure.get ⟨i, h⟩).1 = true) →
      createNextSubfolder now hash s =
        startNoteUploads now hash
          { s with pendingSubfolderIndex := s.pendingFolderStructure.length } := by
  intro k s hk hle hall
  unfold createNextSubfolder
  rw [hk]
  exact createNextSubfolderAux_all_present now hash k s hk hle hall

/-- Helper: in the good state with an empty remote-note map, the per-note
upload loop leaves the state unchanged and never issues a folder-create or a
note-update request (every upload it issues is a note-create). -/
theorem uploadNotesList_good_noMut (now : Int) (hash : String → String) (sub : String) :
    ∀ (notes : List (String × String)) (s : DriveState),
      s.isAuthenticatedFlag = true → s.accessToken ≠ "" → s.tokenExpiry = none →
      s.remoteNoteIds = [] →
      (uploadNotesList now hash sub notes s).1 = s ∧
      ∀ e ∈ (uploadNotesList now hash sub notes s).2,
        isFolderCreateReq e = false ∧ isNoteUpdateReq e = false := by
  intro notes
  induction notes with
  | nil =>
      intro s _ _ _ _
      exact ⟨rfl, by simp [uploadNotesList]⟩
  | cons p rest ih =>
      intro s hflag htok hexp hids
      obtain ⟨t, c⟩ := p
      simp only [uploadNotesList, hids, mapGet_nil]
      obtain ⟨hst, hsh⟩ := uploadNoteToFolder_good_shape now "" c t sub s hflag htok hexp
      rw [hst]
      obtain ⟨h1, h2⟩ := ih s hflag htok hexp hids
      refine ⟨h1, ?_⟩
      intro e he
      rcases List.mem_append.mp he with hl | hr
      · rcases hsh with ⟨m, hm⟩ | hm
        · rw [hm] at hl
          rcases List.mem_singleton.mp hl with rfl
          exact ⟨rfl, rfl⟩
        · rw [hm] at hl
          rcases List.mem_singleton.mp hl with rfl
          exact ⟨rfl, by simp [isNoteUpdateReq]⟩
      · exact h2 e hr

/-- Helper: in the good state with an empty remote-note map, the upload
phase over any folder list leaves the state unchanged and never issues a
folder-create or a note-update request. -/
theorem uploadFolderList_good_noMut (now : Int) (hash : String → String) :
    ∀ (l : FolderStructure) (s : DriveState),
      s.isAuthenticatedFlag = true → s.accessToken ≠ "" → s.tokenExpiry = none →
      s.remoteNoteIds = [] →
      (uploadFolderList now hash l s).1 = s ∧
      ∀ e ∈ (uploadFolderList now hash l s).2,
        isFolderCreateReq e = false ∧ isNoteUpdateReq e = false := by
  intro l
  induction l with
  | nil =>
      intro s _ _ _ _
      exact ⟨rfl, by simp [uploadFolderList]⟩
  | cons p rest ih =>
      intro s hflag htok hexp hids
      obtain ⟨g, ns⟩ := p
      simp only [uploadFolderList]
      split
      · rename_i gid hg
        obtain ⟨hst, hsh⟩ := uploadNotesList_good_noMut now hash gid ns s hflag htok hexp hids
        rw [hst]
        obtain ⟨h1, h2⟩ := ih s hflag htok hexp hids
        refine ⟨h1, ?_⟩
        intro e he
        rcases List.mem_append.mp he with hl | hr
        · exact hsh e hl
        · exact h2 e hr
      · obtain ⟨h1, h2⟩ := ih s hflag htok hexp hids
        refine ⟨h1, ?_⟩
        intro e he
        rcases List.mem_append.mp he with hl | hr
        · cases hl
        · exact h2 e hr

/-- Helper: a successful per-folder note listing emits no network request
(only, possibly, the smartSyncComplete signal). -/
theorem handleListNotes_success_noReq (fname : String) (files : List (String × String))
    (s : DriveState) :
    ∀ e ∈ (handleListNotesInFolderResponse fname (.success files) s).2,
      isNetworkRequest e = false := by
  intro e he
  simp only [handleListNotesInFolderResponse] at he
  split at he
  · rcases List.mem_singleton.mp he with rfl
    rfl
  · cases he

/-- Helper: when every pending folder name appears in the subfolder-listing
reply, the discovery handler issues no folder-create and no note-update
request (the note-create duplicates it does issue are the subject of the
idempotency counterexample). -/
theorem handleListSubfolders_no_creates_no_updates (now : Int) (hash : String → String)
    (folders : List (String × String)) (s0 : DriveState)
    (hflag : s0.isAuthenticatedFlag = true) (htok : s0.accessToken ≠ "")
    (hexp : s0.tokenExpiry = none) (hids : s0.remoteNoteIds = [])
    (hidx : s0.pendingSubfolderIndex ≤ s0.pendingFolderStructure.length)
    (hcover : ∀ p ∈ s0.pendingFolderStructure, ∃ fid, (fid, p.1) ∈ folders) :
    ∀ e ∈ (handleListSubfoldersResponse now hash (.success folders) s0).2,
      isFolderCreateReq e = false ∧ isNoteUpdateReq e = false := by
  intro e he
  obtain ⟨m1, m2, hframe⟩ := insertFolderEntries_frame folders s0
  simp only [handleListSubfoldersResponse, hframe] at he
  obtain ⟨hL1, hL2⟩ := listNotesForFolders_shape now (mapKeysSorted m1)
    { s0 with subfolderIds := m2, remoteFolderIds := m1, structureChecked := true }
    hflag htok hexp
  rw [hL1] at he
  have hcont := createNextSubfolder_all_present now hash
    (s0.pendingFolderStructure.length - s0.pendingSubfolderIndex)
    { s0 with subfolderIds := m2, remoteFolderIds := m1, structureChecked := true }
    rfl hidx
    (by
      intro i h hi
      obtain ⟨fid, hmem⟩ := hcover _ (List.get_mem s0.pendingFolderStructure i h)
      have hc := insertFolderEntries_contains folders s0 fid _ hmem
      rw [hframe] at hc
      exact hc)
  rw [hcont] at he
  have hup := uploadFolderList_good_noMut now hash s0.pendingFolderStructure
    { s0 with subfolderIds := m2, remoteFolderIds := m1, structureChecked := true,
              pendingSubfolderIndex := s0.pendingFolderStructure.length }
    hflag htok hexp hids
  split at he
  · rcases List.mem_append.mp he with hl | hr
    · obtain ⟨fid, k, hk⟩ := hL2 e hl
      rw [hk]
      exact ⟨rfl, rfl⟩
    · exact hup.2 e hr
  · obtain ⟨fid, k, hk⟩ := hL2 e he
    rw [hk]
    exact ⟨rfl, rfl⟩

/-- Claim C1 counterexample: the full scenario.  First run against an empty
remote: listing, one folder-create for Work, then one note-create for Plan.
Second run over the unchanged local structure, with the remote listing now
reflecting the first run's output: after the subfolder listing the handler
proceeds straight into the upload phase — before Work's note listing has
been processed, with the remote-note map still empty — and re-issues a
note-create for Plan (one additional create; the claim requires zero).  The
note listing arrives afterwards and only signals smartSyncComplete. -/
theorem secondRun_reissues_note_create :
    c1Run1Start.2 = [.reqListSubfolders "root1"] ∧
    c1Run1Discovery.2 = [.reqCreateFolder "Work" "root1"] ∧
    c1Run1Create.2 = [.reqUploadMetadata "" "Q1 goals" "Plan" "fid1"] ∧
    c1Run2Start.2 = [.reqListSubfolders "root1"] ∧
    c1Run2Discovery.2 =
      [.reqListNotesInFolder "fid1" "Work", .reqUploadMetadata "" "Q1 goals" "Plan" "fid1"] ∧
    c1Run2NoteListing.2 = [.emitSmartSyncComplete] ∧
    (c1Run2Discovery.2.filter isNoteCreateReq).length = 1 := by
  decide

/-- Claim C1 (amended): a second reconciliation run over an unchanged local
structure, against a remote listing that contains every local folder name,
issues zero folder-create and zero note-update requests; however, because
the upload phase starts from the subfolder-listing handler before any note
listing has been processed, the notes themselves are re-issued as
note-create requests (see the counterexample), and the later per-folder note
listings issue no further network request. -/
theorem secondRun_no_folder_creates_no_updates (now : Int) (hash : String → String)
    (s : DriveState) (fs : FolderStructure) (folders : List (String × String))
    (hflag : s.isAuthenticatedFlag = true) (htok : s.accessToken ≠ "")
    (hexp : s.tokenExpiry = none) (hsf : s.syncFolderId ≠ "")
    (hcover : ∀ p ∈ fs, ∃ fid, (fid, p.1) ∈ folders) :
    (∀ e ∈ (createSubfoldersAndUploadNotes now hash fs s).2 ++
        (handleListSubfoldersResponse now hash (.success folders)
          (createSubfoldersAndUploadNotes now hash fs s).1).2,
      isFolderCreateReq e = false ∧ isNoteUpdateReq e = false) ∧
    (∀ (fname : String) (files : List (String × String)) (e : DriveEffect),
      e ∈ (handleListNotesInFolderResponse fname (.success files)
            (handleListSubfoldersResponse now hash (.success folders)
              (createSubfoldersAndUploadNotes now hash fs s).1).1).2 →
      isNetworkRequest e = false) := by
  have hA := createSubfoldersAndUploadNotes_eq now hash fs s hflag htok hexp hsf
  rw [hA]
  constructor
  · intro e he
    rcases List.mem_append.mp he with hl | hr
    · rcases List.mem_singleton.mp hl with rfl
      exact ⟨rfl, rfl⟩
    · exact handleListSubfolders_no_creates_no_updates now hash folders
        { s with subfolderIds := [], remoteFolderIds := [], remoteNoteIds := [],
                 remoteNoteHashes := [], structureChecked := false,
                 pendingFolderStructure := fs, pendingSubfolderIndex := 0 }
        hflag htok hexp rfl (Nat.zero_le _) (fun p hp => hcover p hp) e hr
  · intro fname files e he
    exact handleListNotes_success_noReq fname files _ e he

/-- Witness for C1 (amended) on the concrete second run of the scenario:
every effect of the second run's first two steps is neither a folder-create
nor a note-update. -/
theorem secondRun_no_folder_creates_no_updates_witness :
    (c1Run2Start.2 ++ c1Run2Discovery.2).all
      (fun e => !isFolderCreateReq e && !isNoteUpdateReq e) = true := by
  have h := secondRun_no_folder_creates_no_updates 0 witnessHash c1Run1Create.1 c1Local
    [("fid1", "Work")] (by decide) (by decide) (by decide) (by decide)
    (by
      intro p hp
      refine ⟨"fid1", ?_⟩
      have hp2 : p = ("Work", [("Plan", "Q1 goals")]) := by
        simpa [c1Local] using hp
      rw [hp2]
      simp)
  refine List.all_eq_true.mpr ?_
  intro e he
  obtain ⟨h1, h2⟩ := h.1 e he
  simp [h1, h2]

/-- Helper: createNextSubfolder past the end of the pending list goes
straight to the note uploads. -/
theorem createNextSubfolder_done (now : Int) (hash : String → String) (s : DriveState)
    (hge : s.pendingFolderStructure.length ≤ s.pendingSubfolderIndex) :
    createNextSubfolder now hash s = startNoteUploads now hash s := by
  unfold createNextSubfolder
  have h0 : s.pendingFolderStructure.length - s.pendingSubfolderIndex = 0 := by omega
  rw [h0]
  simp only [createNextSubfolderAux]

/-- Helper: createNextSubfolder at an unmapped cursor folder issues exactly
that folder's create call and stops. -/
theorem createNextSubfolder_step_create (now : Int) (hash : String → String) (s : DriveState)
    (hlt : s.pendingSubfolderIndex < s.pendingFolderStructure.length)
    (hnc : mapContains s.subfolderIds
        (s.pendingFolderStructure.get ⟨s.pendingSubfolderIndex, hlt⟩).1 = false) :
    createNextSubfolder now hash s =
      createFolder now (s.pendingFolderStructure.get ⟨s.pendingSubfolderIndex, hlt⟩).1 s := by
  unfold createNextSubfolder
  obtain ⟨k, hk⟩ : ∃ k, s.pendingFolderStructure.length - s.pendingSubfolderIndex = k + 1 :=
    ⟨s.pendingFolderStructure.length - s.pendingSubfolderIndex - 1, by omega⟩
  rw [hk]
  have hnle : ¬ s.pendingFolderStructure.length ≤ s.pendingSubfolderIndex := by omega
  simp only [createNextSubfolderAux, dif_neg hnle, hnc, Bool.false_eq_true, if_false]

/-- Helper: createNextSubfolder at an already-mapped cursor folder skips it,
behaving exactly like the call on the advanced cursor. -/
theorem createNextSubfolder_step_skip (now : Int) (hash : String → String) (s : DriveState)
    (hlt : s.pendingSubfolderIndex < s.pendingFolderStructure.length)
    (hc : mapContains s.subfolderIds
        (s.pendingFolderStructure.get ⟨s.pendingSubfolderIndex, hlt⟩).1 = true) :
    createNextSubfolder now hash s =
      createNextSubfolder now hash
        { s with pendingSubfolderIndex := s.pendingSubfolderIndex + 1 } := by
  unfold createNextSubfolder
  obtain ⟨k, hk⟩ : ∃ k, s.pendingFolderStructure.length - s.pendingSubfolderIndex = k + 1 :=
    ⟨s.pendingFolderStructure.length - s.pendingSubfolderIndex - 1, by omega⟩
  have hk2 : ({ s with pendingSubfolderIndex := s.pendingSubfolderIndex + 1 } :
      DriveState).pendingFolderStructure.length -
      ({ s with pendingSubfolderIndex := s.pendingSubfolderIndex + 1 } :
      DriveState).pendingSubfolderIndex = k := by
    simp
    omega
  rw [hk, hk2]
  have hnle : ¬ s.pendingFolderStructure.length ≤ s.pendingSubfolderIndex := by omega
  simp only [createNextSubfolderAux, dif_neg hnle, hc, if_true]

/-- Helper: discovery with an empty reply on a state with no previously
known remote folders records nothing, lists nothing, and (with a nonempty
pending structure) continues straight into subfolder creation. -/
theorem handleListSubfolders_empty (now : Int) (hash : String → String) (s0 : DriveState)
    (hrf : s0.remoteFolderIds = [])
    (hpend : s0.pendingFolderStructure.isEmpty = false) :
    handleListSubfoldersResponse now hash (.success []) s0 =
      createNextSubfolder now hash { s0 with structureChecked := true } := by
  simp only [handleListSubfoldersResponse, insertFolderEntries, mapKeysSorted, hrf,
             List.map_nil, sortKeys, listNotesForFolders, hpend, Bool.not_false, if_true,
             List.nil_append]

/-- Claim C3: with pending folders [A, B, C], none pre-existing remotely
(the subfolder listing returns empty), the reconciler issues the three
folder-create requests strictly in order: the initial call issues only the
listing; the listing's completion issues exactly one request (create A);
the next request (create B) is issued only by A's completion handler, and
create C only by B's; C's completion issues no further create — so at most
one subfolder-create request is ever in flight. -/
theorem sequential_subfolder_creation (now : Int) (hash : String → String)
    (A B C : String) (nA nB nC : List (String × String)) (idA idB idC : String)
    (s : DriveState)
    (hflag : s.isAuthenticatedFlag = true) (htok : s.accessToken ≠ "")
    (hexp : s.tokenExpiry = none) (hsf : s.syncFolderId ≠ "")
    (hAB : A ≠ B) (hAC : A ≠ C) (hBC : B ≠ C) :
    createSubfoldersAndUploadNotes now hash [(A, nA), (B, nB), (C, nC)] s =
      ({ s with subfolderIds := [], remoteFolderIds := [], remoteNoteIds := [],
                remoteNoteHashes := [], structureChecked := false,
                pendingFolderStructure := [(A, nA), (B, nB), (C, nC)],
                pendingSubfolderIndex := 0 },
       [.reqListSubfolders s.syncFolderId]) ∧
    handleListSubfoldersResponse now hash (.success [])
      { s with subfolderIds := [], remoteFolderIds := [], remoteNoteIds := [],
               remoteNoteHashes := [], structureChecked := false,
               pendingFolderStructure := [(A, nA), (B, nB), (C, nC)],
               pendingSubfolderIndex := 0 } =
      ({ s with subfolderIds := [], remoteFolderIds := [], remoteNoteIds := [],
                remoteNoteHashes := [], structureChecked := true,
                pendingFolderStructure := [(A, nA), (B, nB), (C, nC)],
                pendingSubfolderIndex := 0 },
       [.reqCreateFolder A s.syncFolderId]) ∧
    handleCreateSubfolderResponse now hash (.success (idA, A))
      { s with subfolderIds := [], remoteFolderIds := [], remoteNoteIds := [],
               remoteNoteHashes := [], structureChecked := true,
               pendingFolderStructure := [(A, nA), (B, nB), (C, nC)],
               pendingSubfolderIndex := 0 } =
      ({ s with subfolderIds := [(A, idA)], remoteFolderIds := [], remoteNoteIds := [],
                remoteNoteHashes := [], structureChecked := true,
                pendingFolderStructure := [(A, nA), (B, nB), (C, nC)],
                pendingSubfolderIndex := 1 },
       [.reqCreateFolder B s.syncFolderId]) ∧
    handleCreateSubfolderResponse now hash (.success (idB, B))
      { s with subfolderIds := [(A, idA)], remoteFolderIds := [], remoteNoteIds := [],
               remoteNoteHashes := [], structureChecked := true,
               pendingFolderStructure := [(A, nA), (B, nB), (C, nC)],
               pendingSubfolderIndex := 1 } =
      ({ s with subfolderIds := [(A, idA), (B, idB)], remoteFolderIds := [],
                remoteNoteIds := [], remoteNoteHashes := [], structureChecked := true,
                pendingFolderStructure := [(A, nA), (B, nB), (C, nC)],
                pendingSubfolderIndex := 2 },
       [.reqCreateFolder C s.syncFolderId]) ∧
    (∀ e ∈ (handleCreateSubfolderResponse now hash (.success (idC, C))
        { s with subfolderIds := [(A, idA), (B, idB)], remoteFolderIds := [],
                 remoteNoteIds := [], remoteNoteHashes := [], structureChecked := true,
                 pendingFolderStructure := [(A, nA), (B, nB), (C, nC)],
                 pendingSubfolderIndex := 2 }).2,
      isFolderCreateReq e = false) := by
  have h4 : handleCreateSubfolderResponse now hash (.success (idC, C))
      { s with subfolderIds := [(A, idA), (B, idB)], remoteFolderIds := [],
               remoteNoteIds := [], remoteNoteHashes := [], structureChecked := true,
               pendingFolderStructure := [(A, nA), (B, nB), (C, nC)],
               pendingSubfolderIndex := 2 } =
      startNoteUploads now hash
        { s with subfolderIds := [(A, idA), (B, idB), (C, idC)], remoteFolderIds := [],
                 remoteNoteIds := [], remoteNoteHashes := [], structureChecked := true,
                 pendingFolderStructure := [(A, nA), (B, nB), (C, nC)],
                 pendingSubfolderIndex := 3 } := by
    simp only [handleCreateSubfolderResponse, mapInsert]
    rw [if_neg hAC, if_neg hBC]
    exact createNextSubfolder_done now hash _ (by simp)
  refine ⟨createSubfoldersAndUploadNotes_eq now hash _ s hflag htok hexp hsf, ?_, ?_, ?_, ?_⟩
  · refine Eq.trans (handleListSubfolders_empty now hash _ rfl rfl) ?_
    refine Eq.trans (createNextSubfolder_step_create now hash _ (by simp) rfl) ?_
    exact createFolder_good now _ _ hflag htok hexp hsf
  · simp only [handleCreateSubfolderResponse, mapInsert]
    refine Eq.trans (createNextSubfolder_step_create now hash _ (by simp) ?_) ?_
    · simp [mapContains, mapGet, hAB]
    · exact createFolder_good now _ _ hflag htok hexp hsf
  · simp only [handleCreateSubfolderResponse, mapInsert]
    refine Eq.trans (createNextSubfolder_step_create now hash _ (by simp) ?_) ?_
    · simp [mapContains, mapGet, mapInsert, hAB, hAC, hBC]
    · refine Eq.trans (createFolder_good now _ _ hflag htok hexp hsf) ?_
      simp [mapInsert, hAB]
  · intro e he
    rw [h4] at he
    exact ((uploadFolderList_good_noMut now hash _
        { s with subfolderIds := [(A, idA), (B, idB), (C, idC)], remoteFolderIds := [],
                 remoteNoteIds := [], remoteNoteHashes := [], structureChecked := true,
                 pendingFolderStructure := [(A, nA), (B, nB), (C, nC)],
                 pendingSubfolderIndex := 3 }
        hflag htok hexp rfl).2 e he).1

/-- Claim C9: when a subfolder-create completes with an error mid-sequence
(B's creation fails in the [A, B, C] scenario), the handler emits the error
signal, advances the cursor by one, and in the same step issues the next
folder's create request; the final completion reaches the note-upload phase
(no further creates), with the failed folder absent from the subfolder map —
a single failure never aborts the remaining sequence. -/
theorem subfolder_failure_continues (now : Int) (hash : String → String)
    (A B C : String) (nA nB nC : List (String × String)) (idA idC msg : String)
    (s : DriveState)
    (hflag : s.isAuthenticatedFlag = true) (htok : s.accessToken ≠ "")
    (hexp : s.tokenExpiry = none) (hsf : s.syncFolderId ≠ "")
    (hAB : A ≠ B) (hAC : A ≠ C) (hBC : B ≠ C) :
    handleCreateSubfolderResponse now hash (.failure msg)
      { s with subfolderIds := [(A, idA)], remoteFolderIds := [], remoteNoteIds := [],
               remoteNoteHashes := [], structureChecked := true,
               pendingFolderStructure := [(A, nA), (B, nB), (C, nC)],
               pendingSubfolderIndex := 1 } =
      ({ s with subfolderIds := [(A, idA)], remoteFolderIds := [], remoteNoteIds := [],
                remoteNoteHashes := [], structureChecked := true,
                pendingFolderStructure := [(A, nA), (B, nB), (C, nC)],
                pendingSubfolderIndex := 2 },
       [.emitError ("Failed to create subfolder: " ++ msg),
        .reqCreateFolder C s.syncFolderId]) ∧
    (∀ e ∈ (handleCreateSubfolderResponse now hash (.success (idC, C))
        { s with subfolderIds := [(A, idA)], remoteFolderIds := [], remoteNoteIds := [],
                 remoteNoteHashes := [], structureChecked := true,
                 pendingFolderStructure := [(A, nA), (B, nB), (C, nC)],
                 pendingSubfolderIndex := 2 }).2,
      isFolderCreateReq e = false) ∧
    mapGet [(A, idA), (C, idC)] B = none := by
  refine ⟨?_, ?_, ?_⟩
  · simp only [handleCreateSubfolderResponse]
    have hstep : createNextSubfolder now hash
        { s with subfolderIds := [(A, idA)], remoteFolderIds := [], remoteNoteIds := [],
                 remoteNoteHashes := [], structureChecked := true,
                 pendingFolderStructure := [(A, nA), (B, nB), (C, nC)],
                 pendingSubfolderIndex := 2 } =
        ({ s with subfolderIds := [(A, idA)], remoteFolderIds := [], remoteNoteIds := [],
                  remoteNoteHashes := [], structureChecked := true,
                  pendingFolderStructure := [(A, nA), (B, nB), (C, nC)],
                  pendingSubfolderIndex := 2 },
         [.reqCreateFolder C s.syncFolderId]) := by
      refine Eq.trans (createNextSubfolder_step_create now hash _ (by simp) ?_) ?_
      · simp [mapContains, mapGet, hAC]
      · exact createFolder_good now _ _ hflag htok hexp hsf
    rw [hstep]
  · intro e he
    have h4 : handleCreateSubfolderResponse now hash (.success (idC, C))
        { s with subfolderIds := [(A, idA)], remoteFolderIds := [], remoteNoteIds := [],
                 remoteNoteHashes := [], structureChecked := true,
                 pendingFolderStructure := [(A, nA), (B, nB), (C, nC)],
                 pendingSubfolderIndex := 2 } =
        startNoteUploads now hash
          { s with subfolderIds := [(A, idA), (C, idC)], remoteFolderIds := [],
                   remoteNoteIds := [], remoteNoteHashes := [], structureChecked := true,
                   pendingFolderStructure := [(A, nA), (B, nB), (C, nC)],
                   pendingSubfolderIndex := 3 } := by
      simp only [handleCreateSubfolderResponse, mapInsert]
      rw [if_neg hAC]
      exact createNextSubfolder_done now hash _ (by simp)
    rw [h4] at he
    exact ((uploadFolderList_good_noMut now hash _
        { s with subfolderIds := [(A, idA), (C, idC)], remoteFolderIds := [],
                 remoteNoteIds := [], remoteNoteHashes := [], structureChecked := true,
                 pendingFolderStructure := [(A, nA), (B, nB), (C, nC)],
                 pendingSubfolderIndex := 3 }
        hflag htok hexp rfl).2 e he).1
  · have hCB : C ≠ B := Ne.symm hBC
    simp [mapGet, hAB, hCB]


/-- Witness for C3 at concrete names and an authenticated concrete state. -/
theorem sequential_subfolder_creation_witness :
    createSubfoldersAndUploadNotes 0 witnessHash
        [("A", [("n1", "c1")]), ("B", []), ("C", [("n2", "c2")])] driveWitness =
      ({ driveWitness with
           subfolderIds := [], remoteFolderIds := [], remoteNoteIds := [],
           remoteNoteHashes := [], structureChecked := false,
           pendingFolderStructure :=
             [("A", [("n1", "c1")]), ("B", []), ("C", [("n2", "c2")])],
           pendingSubfolderIndex := 0 },
       [.reqListSubfolders "root1"]) :=
  (sequential_subfolder_creation 0 witnessHash "A" "B" "C" [("n1", "c1")] [] [("n2", "c2")]
     "idA" "idB" "idC" driveWitness rfl (by decide) rfl (by decide) (by decide) (by decide)
     (by decide)).1

/-- Witness for C9 at concrete names: B's failure emits the error and
requests C's creation in the same step. -/
theorem subfolder_failure_continues_witness :
    handleCreateSubfolderResponse 0 witnessHash (.failure "Network error")
      { driveWitness with
          subfolderIds := [("A", "idA")], remoteFolderIds := [],
          remoteNoteIds := [], remoteNoteHashes := [], structureChecked := true,
          pendingFolderStructure :=
            [("A", [("n1", "c1")]), ("B", []), ("C", [("n2", "c2")])],
          pendingSubfolderIndex := 1 } =
      ({ driveWitness with
           subfolderIds := [("A", "idA")], remoteFolderIds := [],
           remoteNoteIds := [], remoteNoteHashes := [], structureChecked := true,
           pendingFolderStructure :=
             [("A", [("n1", "c1")]), ("B", []), ("C", [("n2", "c2")])],
           pendingSubfolderIndex := 2 },
       [.emitError "Failed to create subfolder: Network error",
        .reqCreateFolder "C" "root1"]) :=
  (subfolder_failure_continues 0 witnessHash "A" "B" "C" [("n1", "c1")] [] [("n2", "c2")]
     "idA" "idC" "Network error" driveWitness rfl (by decide) rfl (by decide) (by decide)
     (by decide) (by decide)).1

/-- Helper: with an invalid expiry, the shared expiry check does nothing. -/
theorem expiredRefreshCheck_none (now : Int) (s : DriveState) (h : s.tokenExpiry = none) :
    expiredRefreshCheck now s = (s, []) := by
  simp [expiredRefreshCheck, h]

/-- Helper: with an invalid expiry, the isAuthenticated call has no side
effect and reports the flag-and-token conjunction. -/
theorem isAuthenticatedM_none (now : Int) (s : DriveState) (h : s.tokenExpiry = none) :
    isAuthenticatedM now s =
      (s.isAuthenticatedFlag && !(s.accessToken == ""), s, []) := by
  simp only [isAuthenticatedM, expiredRefreshCheck_none now s h]
  split_ifs <;> rfl

/-- Helper: with an invalid expiry, addAuthHeader leaves the state alone and
emits at most a local error. -/
theorem addAuthHeader_none (now : Int) (s : DriveState) (h : s.tokenExpiry = none) :
    (addAuthHeader now s).1 = s ∧
    ∀ e ∈ (addAuthHeader now s).2, benignEffect e = true := by
  simp only [addAuthHeader, expiredRefreshCheck_none now s h]
  split_ifs <;> simp [benignEffect]

/-- Helper: with an invalid expiry, listSubfolders keeps the state and emits
only local errors and requests (no signal that reaches a guard-touching or
syncCompleted-emitting SyncManager slot). -/
theorem listSubfolders_benign (now : Int) (s : DriveState) (h : s.tokenExpiry = none) :
    (listSubfolders now s).1 = s ∧
    ∀ e ∈ (listSubfolders now s).2, benignEffect e = true := by
  obtain ⟨ha1, ha2⟩ := addAuthHeader_none now s h
  simp only [listSubfolders, isAuthenticatedM_none now s h]
  split_ifs
  · exact ⟨rfl, by simp [benignEffect]⟩
  · rw [ha1]
    refine ⟨rfl, ?_⟩
    intro e he
    simp only [List.nil_append] at he
    rcases List.mem_append.mp he with hl | hr
    · exact ha2 e hl
    · rcases List.mem_singleton.mp hr with rfl
      rfl

/-- Helper: with an invalid expiry, listNotes keeps the state and emits only
benign effects. -/
theorem listNotes_benign (now : Int) (s : DriveState) (h : s.tokenExpiry = none) :
    (listNotes now s).1 = s ∧
    ∀ e ∈ (listNotes now s).2, benignEffect e = true := by
  obtain ⟨ha1, ha2⟩ := addAuthHeader_none now s h
  simp only [listNotes, isAuthenticatedM_none now s h]
  split_ifs
  · exact ⟨rfl, by simp [benignEffect]⟩
  · exact ⟨rfl, by simp⟩
  · rw [ha1]
    refine ⟨rfl, ?_⟩
    intro e he
    simp only [List.nil_append] at he
    rcases List.mem_append.mp he with hl | hr
    · exact ha2 e hl
    · rcases List.mem_singleton.mp hr with rfl
      rfl

/-- Helper: with an invalid expiry, findExistingNotesFolder keeps the state
and emits only benign effects. -/
theorem findExistingNotesFolder_benign (now : Int) (s : DriveState)
    (h : s.tokenExpiry = none) :
    (findExistingNotesFolder now s).1 = s ∧
    ∀ e ∈ (findExistingNotesFolder now s).2, benignEffect e = true := by
  obtain ⟨ha1, ha2⟩ := addAuthHeader_none now s h
  simp only [findExistingNotesFolder, isAuthenticatedM_none now s h]
  split_ifs
  · exact ⟨rfl, by simp [benignEffect]⟩
  · rw [ha1]
    refine ⟨rfl, ?_⟩
    intro e he
    simp only [List.nil_append] at he
    rcases List.mem_append.mp he with hl | hr
    · exact ha2 e hl
    · rcases List.mem_singleton.mp hr with rfl
      rfl

/-- Helper: with an invalid expiry, createNotesFolder keeps the state and
emits only benign effects. -/
theorem createNotesFolder_benign (now : Int) (s : DriveState) (h : s.tokenExpiry = none) :
    (createNotesFolder now s).1 = s ∧
    ∀ e ∈ (createNotesFolder now s).2, benignEffect e = true := by
  obtain ⟨hf1, hf2⟩ := findExistingNotesFolder_benign now s h
  simp only [createNotesFolder, isAuthenticatedM_none now s h]
  split_ifs
  · exact ⟨rfl, by simp [benignEffect]⟩
  · rw [hf1]
    refine ⟨rfl, ?_⟩
    intro e he
    simp only [List.nil_append] at he
    exact hf2 e he

/-- Helper: with an invalid expiry, createSubfoldersAndUploadNotes preserves
the expiry and emits only benign effects. -/
theorem createSubfoldersAndUploadNotes_benign (now : Int) (hash : String → String)
    (fs : FolderStructure) (s : DriveState) (h : s.tokenExpiry = none) :
    (createSubfoldersAndUploadNotes now hash fs s).1.tokenExpiry = none ∧
    ∀ e ∈ (createSubfoldersAndUploadNotes now hash fs s).2, benignEffect e = true := by
  have hb := listSubfolders_benign now
    { s with subfolderIds := [], remoteFolderIds := [], remoteNoteIds := [],
             remoteNoteHashes := [], structureChecked := false,
             pendingFolderStructure := fs, pendingSubfolderIndex := 0 } h
  simp only [createSubfoldersAndUploadNotes, checkExistingStructure]
  split_ifs with h1 h2
  · exact ⟨h, by simp [benignEffect]⟩
  · simp at h2
  · refine ⟨?_, hb.2⟩
    rw [hb.1]
    exact h

/-- Helper: with an invalid expiry, uploadFolderStructure preserves the
expiry and emits only benign effects. -/
theorem uploadFolderStructure_benign (now : Int) (hash : String → String)
    (fs : FolderStructure) (s : DriveState) (h : s.tokenExpiry = none) :
    (uploadFolderStructure now hash fs s).1.tokenExpiry = none ∧
    ∀ e ∈ (uploadFolderStructure now hash fs s).2, benignEffect e = true := by
  simp only [uploadFolderStructure, isAuthenticatedM_none now s h]
  split_ifs
  · exact ⟨h, by simp [benignEffect]⟩
  · obtain ⟨hc1, hc2⟩ := createNotesFolder_benign now s h
    rw [hc1]
    refine ⟨h, ?_⟩
    intro e he
    simp only [List.nil_append] at he
    exact hc2 e he
  · obtain ⟨hc1, hc2⟩ := createSubfoldersAndUploadNotes_benign now hash fs s h
    refine ⟨hc1, ?_⟩
    intro e he
    simp only [List.nil_append] at he
    exact hc2 e he

/-- Helper: with an invalid expiry and the structure-checked flag down,
the drive smartSync preserves the expiry and emits only benign effects. -/
theorem smartSyncDrive_benign (now : Int) (s : DriveState) (h : s.tokenExpiry = none)
    (hsc : s.structureChecked = false) :
    (smartSyncDrive now s).1.tokenExpiry = none ∧
    ∀ e ∈ (smartSyncDrive now s).2, benignEffect e = true := by
  simp only [smartSyncDrive, isAuthenticatedM_none now s h, checkExistingStructure, hsc,
    Bool.not_false, eq_self_iff_true, if_true]
  obtain ⟨hl1, hl2⟩ := listSubfolders_benign now s h
  split_ifs with h1 h2
  · exact ⟨h, by simp [benignEffect]⟩
  · exact ⟨h, by simp [benignEffect]⟩
  · refine ⟨?_, ?_⟩
    · rw [hl1]
      exact h
    · intro e he
      simp only [List.nil_append] at he
      exact hl2 e he

/-- Helper: counting syncCompleted distributes over list append. -/
theorem countCompleted_append (a b : List SyncOut) :
    countCompleted (a ++ b) = countCompleted a + countCompleted b := by
  simp [countCompleted, List.filter_append]

/-- Helper: the emission budget is at most one. -/
theorem phi_le_one (s : SyncState) : phi s ≤ 1 := by
  simp only [phi]
  split_ifs <;> simp

/-- Helper: onError only lowers the syncing flag. -/
theorem onErrorSM_fst (msg : String) (s : SyncState) :
    (onErrorSM msg s).1 = { s with isSyncing := false } := by
  simp only [onErrorSM]
  split_ifs <;> rfl

/-- Helper: onError emits no syncCompleted. -/
theorem onErrorSM_count (msg : String) (s : SyncState) :
    countCompleted (onErrorSM msg s).2 = 0 := by
  simp only [onErrorSM]
  split_ifs <;> rfl

/-- Helper: dispatching an empty effect list is the identity. -/
theorem dispatchDrive_nil (fuel : Nat) (env : SyncEnv) (s : SyncState) :
    dispatchDrive fuel env [] s = (s, []) := by
  cases fuel <;> rfl

/-- Helper: dispatching only benign effects (local errors, outward requests,
token persistence, browser opening) never touches the one-shot guard, the
auto-sync flag or the drive state, and emits no syncCompleted: the only slot
such effects can run is onError, which merely lowers the syncing flag. -/
theorem dispatchDrive_benign (env : SyncEnv) :
    ∀ (effs : List DriveEffect) (fuel : Nat) (s : SyncState),
    (∀ e ∈ effs, benignEffect e = true) →
    (dispatchDrive fuel env effs s).1.syncCompletedEmitted = s.syncCompletedEmitted ∧
    (dispatchDrive fuel env effs s).1.autoSyncEnabled = s.autoSyncEnabled ∧
    (dispatchDrive fuel env effs s).1.drive = s.drive ∧
    countCompleted (dispatchDrive fuel env effs s).2 = 0 := by
  intro effs
  induction effs with
  | nil =>
      intro fuel s _
      rw [dispatchDrive_nil]
      exact ⟨rfl, rfl, rfl, rfl⟩
  | cons e rest ih =>
      intro fuel s hben
      have hbe : benignEffect e = true := hben e (List.mem_cons_self e rest)
      have hbr : ∀ x ∈ rest, benignEffect x = true :=
        fun x hx => hben x (List.mem_cons_of_mem e hx)
      cases fuel with
      | zero => exact ⟨rfl, rfl, rfl, rfl⟩
      | succ f =>
          cases e with
          | emitError msg =>
              have h1 := onErrorSM_fst msg s
              obtain ⟨i1, i2, i3, i4⟩ := ih f (onErrorSM msg s).1 hbr
              simp only [dispatchDrive]
              refine ⟨?_, ?_, ?_, ?_⟩
              · rw [i1, h1]
              · rw [i2, h1]
              · rw [i3, h1]
              · rw [countCompleted_append, i4, onErrorSM_count]
          | emitAuthChanged b => simp [benignEffect] at hbe
          | emitSyncComplete => simp [benignEffect] at hbe
          | emitSmartSyncComplete => simp [benignEffect] at hbe
          | emitUploadComplete a b => simp [benignEffect] at hbe
          | emitDownloadComplete a b c => simp [benignEffect] at hbe
          | emitDeleteComplete a b => simp [benignEffect] at hbe
          | emitNotesListReceived => simp [benignEffect] at hbe
          | reqTokenRefresh a =>
              obtain ⟨i1, i2, i3, i4⟩ := ih f s hbr
              simp only [dispatchDrive]
              exact ⟨i1, i2, i3, by rw [countCompleted_append, i4]; rfl⟩
          | reqUploadMetadata a b c d =>
              obtain ⟨i1, i2, i3, i4⟩ := ih f s hbr
              simp only [dispatchDrive]
              exact ⟨i1, i2, i3, by rw [countCompleted_append, i4]; rfl⟩
          | reqList a =>
              obtain ⟨i1, i2, i3, i4⟩ := ih f s hbr
              simp only [dispatchDrive]
              exact ⟨i1, i2, i3, by rw [countCompleted_append, i4]; rfl⟩
          | reqCreateFolder a b =>
              obtain ⟨i1, i2, i3, i4⟩ := ih f s hbr
              simp only [dispatchDrive]
              exact ⟨i1, i2, i3, by rw [countCompleted_append, i4]; rfl⟩
          | reqCreateRootFolder =>
              obtain ⟨i1, i2, i3, i4⟩ := ih f s hbr
              simp only [dispatchDrive]
              exact ⟨i1, i2, i3, by rw [countCompleted_append, i4]; rfl⟩
          | reqFindFolder =>
              obtain ⟨i1, i2, i3, i4⟩ := ih f s hbr
              simp only [dispatchDrive]
              exact ⟨i1, i2, i3, by rw [countCompleted_append, i4]; rfl⟩
          | reqListSubfolders a =>
              obtain ⟨i1, i2, i3, i4⟩ := ih f s hbr
              simp only [dispatchDrive]
              exact ⟨i1, i2, i3, by rw [countCompleted_append, i4]; rfl⟩
          | reqListNotesInFolder a b =>
              obtain ⟨i1, i2, i3, i4⟩ := ih f s hbr
              simp only [dispatchDrive]
              exact ⟨i1, i2, i3, by rw [countCompleted_append, i4]; rfl⟩
          | saveTokens a b c =>
              obtain ⟨i1, i2, i3, i4⟩ := ih f s hbr
              simp only [dispatchDrive]
              exact ⟨i1, i2, i3, by rw [countCompleted_append, i4]; rfl⟩
          | openBrowser =>
              obtain ⟨i1, i2, i3, i4⟩ := ih f s hbr
              simp only [dispatchDrive]
              exact ⟨i1, i2, i3, by rw [countCompleted_append, i4]; rfl⟩

/-- Helper: checkSyncCompletion spends at most the available budget and
leaves the auto-sync flag and the token expiry alone. -/
theorem checkSyncCompletion_budget (s : SyncState) :
    countCompleted (checkSyncCompletion s).2 + phi (checkSyncCompletion s).1 ≤ phi s ∧
    (checkSyncCompletion s).1.autoSyncEnabled = s.autoSyncEnabled ∧
    (checkSyncCompletion s).1.drive.tokenExpiry = s.drive.tokenExpiry := by
  simp only [checkSyncCompletion, clearStructureDataSM]
  split_ifs with h1 h2
  · have hf : s.syncCompletedEmitted = false := by simpa using h2
    refine ⟨?_, rfl, rfl⟩
    show 1 + 0 ≤ phi s
    simp [phi, hf]
  · refine ⟨?_, rfl, rfl⟩
    show 0 + phi s ≤ phi s
    simp
  · refine ⟨?_, rfl, rfl⟩
    show 0 + phi s ≤ phi s
    simp

/-- Helper: compareNotes spends at most the available budget and leaves the
auto-sync flag and the token expiry alone. -/
theorem compareNotes_budget (s : SyncState) :
    countCompleted (compareNotes s).2 + phi (compareNotes s).1 ≤ phi s ∧
    (compareNotes s).1.autoSyncEnabled = s.autoSyncEnabled ∧
    (compareNotes s).1.drive.tokenExpiry = s.drive.tokenExpiry := by
  simp only [compareNotes]
  split_ifs with h2
  · have hf : s.syncCompletedEmitted = false := by simpa using h2
    refine ⟨?_, rfl, rfl⟩
    show 1 + 0 ≤ phi s
    simp [phi, hf]
  · refine ⟨?_, rfl, rfl⟩
    show 0 + phi s ≤ phi s
    simp

/-- Helper: onSmartSyncComplete spends at most the available budget and
leaves the auto-sync flag and the token expiry alone. -/
theorem onSmartSyncComplete_budget (s : SyncState) :
    countCompleted (onSmartSyncComplete s).2 + phi (onSmartSyncComplete s).1 ≤ phi s ∧
    (onSmartSyncComplete s).1.autoSyncEnabled = s.autoSyncEnabled ∧
    (onSmartSyncComplete s).1.drive.tokenExpiry = s.drive.tokenExpiry := by
  simp only [onSmartSyncComplete, clearStructureDataSM]
  split_ifs with h2
  · have hf : s.syncCompletedEmitted = false := by simpa using h2
    refine ⟨?_, rfl, rfl⟩
    show 1 + 0 ≤ phi s
    simp [phi, hf]
  · refine ⟨?_, rfl, rfl⟩
    show 0 + phi s ≤ phi s
    simp

/-- Helper: a completion report followed by the completion check spends at
most the budget of any state agreeing on the guard, the flag and the
expiry. -/
theorem checkSyncCompletion_after (x : SyncOut) (s1 s : SyncState)
    (hx : (x == SyncOut.outSyncCompleted) = false)
    (hphi : s1.syncCompletedEmitted = s.syncCompletedEmitted)
    (hauto : s1.autoSyncEnabled = s.autoSyncEnabled)
    (hexp : s1.drive.tokenExpiry = s.drive.tokenExpiry) :
    countCompleted (x :: (checkSyncCompletion s1).2) + phi (checkSyncCompletion s1).1 ≤ phi s ∧
    (checkSyncCompletion s1).1.autoSyncEnabled = s.autoSyncEnabled ∧
    (checkSyncCompletion s1).1.drive.tokenExpiry = s.drive.tokenExpiry := by
  obtain ⟨b1, b2, b3⟩ := checkSyncCompletion_budget s1
  have hcc : countCompleted (x :: (checkSyncCompletion s1).2)
      = countCompleted (checkSyncCompletion s1).2 := by
    simp [countCompleted, List.filter_cons, hx]
  have hps : phi s1 = phi s := by
    simp only [phi, hphi]
  rw [hcc]
  exact ⟨hps ▸ b1, hauto ▸ b2, hexp ▸ b3⟩

/-- Helper: onUploadComplete spends at most the available budget and leaves
the auto-sync flag and the token expiry alone. -/
theorem onUploadComplete_budget (n : String) (ok : Bool) (s : SyncState) :
    countCompleted (onUploadComplete n ok s).2 + phi (onUploadComplete n ok s).1 ≤ phi s ∧
    (onUploadComplete n ok s).1.autoSyncEnabled = s.autoSyncEnabled ∧
    (onUploadComplete n ok s).1.drive.tokenExpiry = s.drive.tokenExpiry := by
  simp only [onUploadComplete]
  exact checkSyncCompletion_after (SyncOut.outNoteUploaded n ok) s s rfl rfl rfl rfl

/-- Helper: onDownloadComplete spends at most the available budget and
leaves the auto-sync flag and the token expiry alone. -/
theorem onDownloadComplete_budget (n : String) (ok : Bool) (s : SyncState) :
    countCompleted (onDownloadComplete n ok s).2 + phi (onDownloadComplete n ok s).1 ≤ phi s ∧
    (onDownloadComplete n ok s).1.autoSyncEnabled = s.autoSyncEnabled ∧
    (onDownloadComplete n ok s).1.drive.tokenExpiry = s.drive.tokenExpiry := by
  simp only [onDownloadComplete]
  exact checkSyncCompletion_after (SyncOut.outNoteDownloaded n ok) s s rfl rfl rfl rfl

/-- Helper: onDeleteComplete spends at most the available budget and leaves
the auto-sync flag and the token expiry alone. -/
theorem onDeleteComplete_budget (n : String) (ok : Bool) (s : SyncState) :
    countCompleted (onDeleteComplete n ok s).2 + phi (onDeleteComplete n ok s).1 ≤ phi s ∧
    (onDeleteComplete n ok s).1.autoSyncEnabled = s.autoSyncEnabled ∧
    (onDeleteComplete n ok s).1.drive.tokenExpiry = s.drive.tokenExpiry := by
  simp only [onDeleteComplete]
  split_ifs with h1 h2
  · exact checkSyncCompletion_after (SyncOut.outNoteDownloaded n true) _ s rfl rfl rfl rfl
  · exact checkSyncCompletion_after (SyncOut.outNoteDownloaded n true) s s rfl rfl rfl rfl
  · exact checkSyncCompletion_after (SyncOut.outNoteDownloaded n false) s s rfl rfl rfl rfl

/-- Helper: onError spends no budget and leaves the auto-sync flag and the
token expiry alone. -/
theorem onErrorSM_budget (msg : String) (s : SyncState) :
    countCompleted (onErrorSM msg s).2 + phi (onErrorSM msg s).1 ≤ phi s ∧
    (onErrorSM msg s).1.autoSyncEnabled = s.autoSyncEnabled ∧
    (onErrorSM msg s).1.drive.tokenExpiry = s.drive.tokenExpiry := by
  rw [onErrorSM_count, onErrorSM_fst]
  refine ⟨?_, rfl, rfl⟩
  show 0 + phi s ≤ phi s
  simp

/-- Helper: with the one-shot guard down, dispatching the benign effects of
a drive call keeps the total emission count within one and preserves the
disabled auto-sync flag and the invalid expiry. -/
theorem callDispatchTail_budget (f : Nat) (env : SyncEnv)
    (g : DriveState → DriveState × List DriveEffect) (u : SyncState) (pre : List SyncOut)
    (hu : u.syncCompletedEmitted = false)
    (hauto : u.autoSyncEnabled = false)
    (hgexp : (g u.drive).1.tokenExpiry = none)
    (hgben : ∀ e ∈ (g u.drive).2, benignEffect e = true)
    (hpre : countCompleted pre = 0) :
    countCompleted (pre ++
        (dispatchDrive f env (g u.drive).2 { u with drive := (g u.drive).1 }).2) +
      phi (dispatchDrive f env (g u.drive).2 { u with drive := (g u.drive).1 }).1 ≤ 1 ∧
    (dispatchDrive f env (g u.drive).2
        { u with drive := (g u.drive).1 }).1.autoSyncEnabled = false ∧
    (dispatchDrive f env (g u.drive).2
        { u with drive := (g u.drive).1 }).1.drive.tokenExpiry = none := by
  obtain ⟨d1, d2, d3, d4⟩ := dispatchDrive_benign env (g u.drive).2 f
    { u with drive := (g u.drive).1 } hgben
  refine ⟨?_, ?_, ?_⟩
  · rw [countCompleted_append, d4, hpre]
    have h1 : phi (dispatchDrive f env (g u.drive).2
        { u with drive := (g u.drive).1 }).1 = 1 := by
      simp only [phi]
      rw [d1]
      simp [hu]
    rw [h1]
  · rw [d2]
    exact hauto
  · rw [d3]
    exact hgexp

/-- Helper: the guard-resetting variant of the previous lemma, with the
start announcement appended, as the uploadAllNotes tail does. -/
theorem callDispatchTailReset_budget (f : Nat) (env : SyncEnv)
    (g : DriveState → DriveState × List DriveEffect) (u : SyncState) (pre : List SyncOut)
    (hauto : u.autoSyncEnabled = false)
    (hgexp : (g u.drive).1.tokenExpiry = none)
    (hgben : ∀ e ∈ (g u.drive).2, benignEffect e = true)
    (hpre : countCompleted pre = 0) :
    countCompleted (pre ++
        (dispatchDrive f env (g u.drive).2 { u with drive := (g u.drive).1 }).2 ++
        [SyncOut.outSyncStarted]) +
      phi { (dispatchDrive f env (g u.drive).2 { u with drive := (g u.drive).1 }).1 with
            syncCompletedEmitted := false } ≤ 1 ∧
    ({ (dispatchDrive f env (g u.drive).2 { u with drive := (g u.drive).1 }).1 with
       syncCompletedEmitted := false } : SyncState).autoSyncEnabled = false ∧
    ({ (dispatchDrive f env (g u.drive).2 { u with drive := (g u.drive).1 }).1 with
       syncCompletedEmitted := false } : SyncState).drive.tokenExpiry = none := by
  obtain ⟨d1, d2, d3, d4⟩ := dispatchDrive_benign env (g u.drive).2 f
    { u with drive := (g u.drive).1 } hgben
  refine ⟨?_, ?_, ?_⟩
  · rw [countCompleted_append, countCompleted_append, d4, hpre]
    have h1 : phi { (dispatchDrive f env (g u.drive).2
        { u with drive := (g u.drive).1 }).1 with syncCompletedEmitted := false } = 1 := rfl
    rw [h1]
    have h0 : countCompleted [SyncOut.outSyncStarted] = 0 := rfl
    rw [h0]
  · show (dispatchDrive f env (g u.drive).2
        { u with drive := (g u.drive).1 }).1.autoSyncEnabled = false
    rw [d2]
    exact hauto
  · show (dispatchDrive f env (g u.drive).2
        { u with drive := (g u.drive).1 }).1.drive.tokenExpiry = none
    rw [d3]
    exact hgexp

/-- Helper: with the one-shot guard already up, dispatching the benign
effects of a drive call adds nothing to an already-admissible emission
count and preserves the disabled auto-sync flag and the invalid expiry. -/
theorem callDispatchTailDone_budget (f : Nat) (env : SyncEnv)
    (g : DriveState → DriveState × List DriveEffect) (u : SyncState) (pre : List SyncOut)
    (N : Nat)
    (ht : u.syncCompletedEmitted = true)
    (hauto : u.autoSyncEnabled = false)
    (hgexp : (g u.drive).1.tokenExpiry = none)
    (hgben : ∀ e ∈ (g u.drive).2, benignEffect e = true)
    (hpre : countCompleted pre ≤ N) :
    countCompleted (pre ++
        (dispatchDrive f env (g u.drive).2 { u with drive := (g u.drive).1 }).2) +
      phi (dispatchDrive f env (g u.drive).2 { u with drive := (g u.drive).1 }).1 ≤ N ∧
    (dispatchDrive f env (g u.drive).2
        { u with drive := (g u.drive).1 }).1.autoSyncEnabled = false ∧
    (dispatchDrive f env (g u.drive).2
        { u with drive := (g u.drive).1 }).1.drive.tokenExpiry = none := by
  obtain ⟨d1, d2, d3, d4⟩ := dispatchDrive_benign env (g u.drive).2 f
    { u with drive := (g u.drive).1 } hgben
  refine ⟨?_, ?_, ?_⟩
  · rw [countCompleted_append, d4]
    have h1 : phi (dispatchDrive f env (g u.drive).2
        { u with drive := (g u.drive).1 }).1 = 0 := by
      simp only [phi]
      rw [d1]
      simp [ht]
    rw [h1]
    simpa using hpre
  · rw [d2]
    exact hauto
  · rw [d3]
    exact hgexp

/-- Helper: the onFolderCreated slot spends at most the available budget
and, with auto-sync off and an invalid expiry, preserves both. -/
theorem onFolderCreated_budget (fuel : Nat) (env : SyncEnv) (s : SyncState)
    (hauto : s.autoSyncEnabled = false) (hexp : s.drive.tokenExpiry = none) :
    countCompleted (onFolderCreated fuel env s).2 + phi (onFolderCreated fuel env s).1 ≤ phi s ∧
    (onFolderCreated fuel env s).1.autoSyncEnabled = false ∧
    (onFolderCreated fuel env s).1.drive.tokenExpiry = none := by
  cases fuel with
  | zero =>
      refine ⟨?_, hauto, hexp⟩
      show 0 + phi s ≤ phi s
      simp
  | succ f =>
      have hben := createSubfoldersAndUploadNotes_benign env.now env.hash env.dbFolderStructure
        (setSyncFolder s.drive.syncFolderId s.drive) hexp
      cases hfe : s.syncCompletedEmitted with
      | false =>
          have hp1 : phi s = 1 := by simp [phi, hfe]
          simp only [onFolderCreated, hfe, Bool.not_false, eq_self_iff_true, if_true]
          split_ifs with h1 h2
          · have hpre : countCompleted [SyncOut.outSyncCompleted] ≤ phi s := by
              rw [hp1]
              decide
            exact callDispatchTailDone_budget f env
              (createSubfoldersAndUploadNotes env.now env.hash env.dbFolderStructure)
              { s with syncFolderId := s.drive.syncFolderId,
                       drive := setSyncFolder s.drive.syncFolderId s.drive,
                       syncCompletedEmitted := true }
              [SyncOut.outSyncCompleted] (phi s) rfl hauto hben.1 hben.2 hpre
          · simp [hauto] at h2
          · refine ⟨?_, hauto, hexp⟩
            rw [hp1]
            show 1 + 0 ≤ 1
            simp
      | true =>
          simp only [onFolderCreated, hfe, Bool.not_true, Bool.false_eq_true, if_false]
          split_ifs with h1 h2
          · exact callDispatchTailDone_budget f env
              (createSubfoldersAndUploadNotes env.now env.hash env.dbFolderStructure)
              { s with syncFolderId := s.drive.syncFolderId,
                       drive := setSyncFolder s.drive.syncFolderId s.drive,
                       syncCompletedEmitted := true }
              [] (phi s) rfl hauto hben.1 hben.2 (Nat.zero_le (phi s))
          · simp [hauto] at h2
          · refine ⟨?_, hauto, hexp⟩
            show 0 + 0 ≤ phi s
            simp

/-- Helper: delivering any single asynchronous completion spends at most
the available emission budget and preserves the disabled auto-sync flag and
the invalid expiry. -/
theorem applySyncEvent_budget (fuel : Nat) (env : SyncEnv) (s : SyncState) (ev : SyncEvent)
    (hauto : s.autoSyncEnabled = false) (hexp : s.drive.tokenExpiry = none) :
    countCompleted (applySyncEvent fuel env s ev).2 + phi (applySyncEvent fuel env s ev).1
      ≤ phi s ∧
    (applySyncEvent fuel env s ev).1.autoSyncEnabled = false ∧
    (applySyncEvent fuel env s ev).1.drive.tokenExpiry = none := by
  cases ev with
  | evFolderCreated => exact onFolderCreated_budget fuel env s hauto hexp
  | evSmartSyncComplete =>
      obtain ⟨b1, b2, b3⟩ := onSmartSyncComplete_budget s
      exact ⟨b1, b2.trans hauto, b3.trans hexp⟩
  | evUploadComplete n ok =>
      obtain ⟨b1, b2, b3⟩ := onUploadComplete_budget n ok s
      exact ⟨b1, b2.trans hauto, b3.trans hexp⟩
  | evDownloadComplete n c ok =>
      obtain ⟨b1, b2, b3⟩ := onDownloadComplete_budget n ok s
      exact ⟨b1, b2.trans hauto, b3.trans hexp⟩
  | evDeleteComplete n ok =>
      obtain ⟨b1, b2, b3⟩ := onDeleteComplete_budget n ok s
      exact ⟨b1, b2.trans hauto, b3.trans hexp⟩
  | evNotesListReceived =>
      obtain ⟨b1, b2, b3⟩ := compareNotes_budget s
      exact ⟨b1, b2.trans hauto, b3.trans hexp⟩
  | evError msg =>
      obtain ⟨b1, b2, b3⟩ := onErrorSM_budget msg s
      exact ⟨b1, b2.trans hauto, b3.trans hexp⟩

/-- Helper: delivering any sequence of asynchronous completions spends at
most the available emission budget. -/
theorem runSyncEvents_budget (fuel : Nat) (env : SyncEnv) :
    ∀ (evs : List SyncEvent) (s : SyncState),
    s.autoSyncEnabled = false → s.drive.tokenExpiry = none →
    countCompleted (runSyncEvents fuel env evs s).2 + phi (runSyncEvents fuel env evs s).1
      ≤ phi s := by
  intro evs
  induction evs with
  | nil =>
      intro s _ _
      show 0 + phi s ≤ phi s
      simp
  | cons ev rest ih =>
      intro s hauto hexp
      obtain ⟨b1, b2, b3⟩ := applySyncEvent_budget fuel env s ev hauto hexp
      have hr := ih (applySyncEvent fuel env s ev).1 b2 b3
      simp only [runSyncEvents]
      rw [countCompleted_append]
      omega

/-- Helper: a manual syncNow invocation emits at most one syncCompleted
counting the remaining budget, and preserves the disabled auto-sync flag
and the invalid expiry. -/
theorem syncNowF_budget (fuel : Nat) (env : SyncEnv) (s : SyncState)
    (hauto : s.autoSyncEnabled = false) (hexp : s.drive.tokenExpiry = none) :
    countCompleted (syncNowF fuel env s).2 + phi (syncNowF fuel env s).1 ≤ 1 ∧
    (syncNowF fuel env s).1.autoSyncEnabled = false ∧
    (syncNowF fuel env s).1.drive.tokenExpiry = none := by
  cases fuel with
  | zero =>
      refine ⟨?_, hauto, hexp⟩
      show 0 + phi s ≤ 1
      simpa using phi_le_one s
  | succ f =>
      simp only [syncNowF, isAuthenticatedM_none env.now s.drive hexp, dispatchDrive_nil]
      split_ifs with h1 h2
      · refine ⟨?_, hauto, hexp⟩
        show 0 + phi s ≤ 1
        simpa using phi_le_one s
      · refine ⟨?_, hauto, hexp⟩
        show 0 + phi s ≤ 1
        simpa using phi_le_one s
      · have hg := listNotes_benign env.now s.drive hexp
        have hgexp : (listNotes env.now s.drive).1.tokenExpiry = none := by
          rw [hg.1]
          exact hexp
        exact callDispatchTail_budget f env (listNotes env.now)
          { s with drive := s.drive, isSyncing := true, syncCompletedEmitted := false }
          [SyncOut.outSyncStarted] rfl hauto hgexp hg.2 rfl

/-- Helper: an uploadAllNotes invocation emits at most one syncCompleted
counting the remaining budget, and preserves the disabled auto-sync flag
and the invalid expiry. -/
theorem uploadAllNotesSM_budget (fuel : Nat) (env : SyncEnv) (s : SyncState)
    (hauto : s.autoSyncEnabled = false) (hexp : s.drive.tokenExpiry = none) :
    countCompleted (uploadAllNotesSM fuel env s).2 + phi (uploadAllNotesSM fuel env s).1 ≤ 1 ∧
    (uploadAllNotesSM fuel env s).1.autoSyncEnabled = false ∧
    (uploadAllNotesSM fuel env s).1.drive.tokenExpiry = none := by
  cases fuel with
  | zero =>
      refine ⟨?_, hauto, hexp⟩
      show 0 + phi s ≤ 1
      simpa using phi_le_one s
  | succ f =>
      simp only [uploadAllNotesSM, isAuthenticatedM_none env.now s.drive hexp, dispatchDrive_nil]
      split_ifs with h1 h2 h3
      · refine ⟨?_, hauto, hexp⟩
        show 0 + phi s ≤ 1
        simpa using phi_le_one s
      · refine ⟨?_, hauto, hexp⟩
        show 1 + 0 ≤ 1
        simp
      · simp at h3
      · have hg := uploadFolderStructure_benign env.now env.hash env.dbFolderStructure
          s.drive hexp
        exact callDispatchTailReset_budget f env
          (uploadFolderStructure env.now env.hash env.dbFolderStructure)
          { s with drive := s.drive, syncCompletedEmitted := false }
          [] hauto hg.1 hg.2 rfl

/-- Helper: a smartSync invocation emits at most one syncCompleted counting
the remaining budget, and preserves the disabled auto-sync flag and the
invalid expiry. -/
theorem smartSyncSM_budget (fuel : Nat) (env : SyncEnv) (s : SyncState)
    (hauto : s.autoSyncEnabled = false) (hexp : s.drive.tokenExpiry = none) :
    countCompleted (smartSyncSM fuel env s).2 + phi (smartSyncSM fuel env s).1 ≤ 1 ∧
    (smartSyncSM fuel env s).1.autoSyncEnabled = false ∧
    (smartSyncSM fuel env s).1.drive.tokenExpiry = none := by
  cases fuel with
  | zero =>
      refine ⟨?_, hauto, hexp⟩
      show 0 + phi s ≤ 1
      simpa using phi_le_one s
  | succ f =>
      simp only [smartSyncSM, isAuthenticatedM_none env.now s.drive hexp, dispatchDrive_nil,
        clearStructureDataSM]
      split_ifs with h1 h2
      · refine ⟨?_, hauto, hexp⟩
        show 0 + phi s ≤ 1
        simpa using phi_le_one s
      · have hg := createNotesFolder_benign env.now (clearStructureData s.drive) hexp
        have hgexp : (createNotesFolder env.now (clearStructureData s.drive)).1.tokenExpiry
            = none := by
          rw [hg.1]
          exact hexp
        exact callDispatchTail_budget f env (createNotesFolder env.now)
          { s with drive := clearStructureData s.drive, syncCompletedEmitted := false,
                   isSyncing := true }
          [] rfl hauto hgexp hg.2 rfl
      · have hg := smartSyncDrive_benign env.now (clearStructureData s.drive) hexp rfl
        exact callDispatchTail_budget f env (smartSyncDrive env.now)
          { s with drive := clearStructureData s.drive, syncCompletedEmitted := false,
                   isSyncing := true }
          [] rfl hauto hg.1 hg.2 rfl

/-- Helper: a syncAllNotes invocation emits at most one syncCompleted
counting the remaining budget, and preserves the disabled auto-sync flag
and the invalid expiry. -/
theorem syncAllNotesSM_budget (fuel : Nat) (env : SyncEnv) (s : SyncState)
    (hauto : s.autoSyncEnabled = false) (hexp : s.drive.tokenExpiry = none) :
    countCompleted (syncAllNotesSM fuel env s).2 + phi (syncAllNotesSM fuel env s).1 ≤ 1 ∧
    (syncAllNotesSM fuel env s).1.autoSyncEnabled = false ∧
    (syncAllNotesSM fuel env s).1.drive.tokenExpiry = none := by
  cases fuel with
  | zero =>
      refine ⟨?_, hauto, hexp⟩
      show 0 + phi s ≤ 1
      simpa using phi_le_one s
  | succ f =>
      simp only [syncAllNotesSM, isAuthenticatedM_none env.now s.drive hexp, dispatchDrive_nil,
        clearStructureDataSM]
      split_ifs with h1 h2
      · refine ⟨?_, hauto, hexp⟩
        show 0 + phi s ≤ 1
        simpa using phi_le_one s
      · have hg := createNotesFolder_benign env.now (clearStructureData s.drive) hexp
        have hgexp : (createNotesFolder env.now (clearStructureData s.drive)).1.tokenExpiry
            = none := by
          rw [hg.1]
          exact hexp
        exact callDispatchTail_budget f env (createNotesFolder env.now)
          { s with drive := clearStructureData s.drive, syncCompletedEmitted := false,
                   isSyncing := true }
          [] rfl hauto hgexp hg.2 rfl
      · exact uploadAllNotesSM_budget f env
          { s with drive := clearStructureData s.drive, syncCompletedEmitted := false,
                   isSyncing := true }
          hauto hexp

/-- Helper: every public entry point emits at most one syncCompleted
counting the remaining budget, and preserves the disabled auto-sync flag
and the invalid expiry. -/
theorem startInvocation_budget (fuel : Nat) (env : SyncEnv) (inv : SyncInvocation)
    (s : SyncState)
    (hauto : s.autoSyncEnabled = false) (hexp : s.drive.tokenExpiry = none) :
    countCompleted (startInvocation fuel env inv s).2 +
      phi (startInvocation fuel env inv s).1 ≤ 1 ∧
    (startInvocation fuel env inv s).1.autoSyncEnabled = false ∧
    (startInvocation fuel env inv s).1.drive.tokenExpiry = none := by
  cases inv with
  | invSyncNow => exact syncNowF_budget fuel env s hauto hexp
  | invUploadAll => exact uploadAllNotesSM_budget fuel env s hauto hexp
  | invSmartSync => exact smartSyncSM_budget fuel env s hauto hexp
  | invSyncAll => exact syncAllNotesSM_budget fuel env s hauto hexp

/-- Claim C4: within a single sync session — one public entry point
(syncNow, uploadAllNotes, smartSync or syncAllNotes) followed by any
sequence of asynchronous completion notifications (folder creation,
smart-sync completion, note uploads, downloads, deletions, the note
listing, errors) — the syncCompleted signal is emitted at most once in
total, however many completion paths converge; the m_syncCompletedEmitted
one-shot guard enforces this.  The session is scoped by auto-sync being
off (an enabled auto-sync timer starts a new session with a fresh guard)
and by an invalid token expiry (a mid-session synchronous re-authentication
round-trip likewise resets the guard for a new session). -/
theorem syncCompleted_at_most_once (fuel : Nat) (env : SyncEnv) (inv : SyncInvocation)
    (evs : List SyncEvent) (s : SyncState)
    (hauto : s.autoSyncEnabled = false) (hexp : s.drive.tokenExpiry = none) :
    countCompleted (startInvocation fuel env inv s).2 +
      countCompleted (runSyncEvents fuel env evs (startInvocation fuel env inv s).1).2 ≤ 1 := by
  obtain ⟨b1, b2, b3⟩ := startInvocation_budget fuel env inv s hauto hexp
  have hr := runSyncEvents_budget fuel env evs (startInvocation fuel env inv s).1 b2 b3
  omega

/-- Claim C4 witness: a concrete smartSync session in which the smart-sync
completion arrives twice, the folder-created signal fires and an upload
completes; the session still emits exactly at most one syncCompleted. -/
theorem syncCompleted_at_most_once_witness :
    syncWitness.autoSyncEnabled = false ∧ syncWitness.drive.tokenExpiry = none ∧
    countCompleted (startInvocation 10 witnessEnv SyncInvocation.invSmartSync syncWitness).2 +
      countCompleted (runSyncEvents 10 witnessEnv
        [SyncEvent.evSmartSyncComplete, SyncEvent.evSmartSyncComplete,
         SyncEvent.evFolderCreated, SyncEvent.evUploadComplete "n" true]
        (startInvocation 10 witnessEnv SyncInvocation.invSmartSync syncWitness).1).2 ≤ 1 :=
  ⟨rfl, rfl,
   syncCompleted_at_most_once 10 witnessEnv SyncInvocation.invSmartSync
     [SyncEvent.evSmartSyncComplete, SyncEvent.evSmartSyncComplete,
      SyncEvent.evFolderCreated, SyncEvent.evUploadComplete "n" true]
     syncWitness rfl rfl⟩

end NotesSync
